import Mathlib

/-!
Verification development for `src/rcv/ublox.c` (RTKLIB u-blox receiver
decoder).  The C functions are shallowly embedded: byte buffers become
`Nat → Nat` (each cell holding one byte value), machine integers become
`Nat`/`Int` with explicit `% 256` (resp. `% 2^w`) where the C code relies
on unsigned wrap-around, C `double` values that only participate in exact
arithmetic and comparisons become `ℚ`, and the external library functions
that the file calls (satellite numbering, GNSS time conversion, CRC-24Q,
GLONASS Hamming test, frame algebra) are either explicit parameters of the
embedded functions or small definitions modelled from the specification,
as flagged in their doc comments.
-/

namespace Ublox

/-! ## Byte-level primitives (ublox.c "get/set fields" section) -/

/-- Little-endian 2-byte read: `U2(p)` of ublox.c (a `memcpy` of two
little-endian bytes). -/
def u2 (b : ℕ → ℕ) (off : ℕ) : ℕ := b off + 256 * b (off + 1)

/-- The running Fletcher-style checksum over bytes `buff[2 .. len-3]`:
the common loop of `checksum` and `setcs` in ublox.c.  Both accumulators
are C `unsigned char`, hence the `% 256`. -/
def cssum (b : ℕ → ℕ) (len : ℕ) : ℕ × ℕ :=
  (List.range (len - 4)).foldl
    (fun ab i =>
      let a := (ab.1 + b (i + 2)) % 256
      (a, (ab.2 + a) % 256))
    (0, 0)

/-- `checksum(buff,len)` of ublox.c: recompute the running checksum and
compare it with the two trailing bytes. -/
def checksum (b : ℕ → ℕ) (len : ℕ) : Bool :=
  ((cssum b len).1 == b (len - 2)) && ((cssum b len).2 == b (len - 1))

/-- `setcs(buff,len)` of ublox.c: write the running checksum into the two
trailing bytes of the buffer. -/
def setcs (b : ℕ → ℕ) (len : ℕ) : ℕ → ℕ :=
  fun i =>
    if i = len - 2 then (cssum b len).1
    else if i = len - 1 then (cssum b len).2
    else b i

/-- Modelled from the spec: `getbitu` of the external shared library
(rtkcmn.c, declared in rtklib.h, not under src/): extract `len` bits
MSB-first starting at bit position `pos` of a byte buffer. -/
def getbitu (b : ℕ → ℕ) (pos len : ℕ) : ℕ :=
  (List.range len).foldl
    (fun acc i => acc * 2 + ((b ((pos + i) / 8) >>> (7 - (pos + i) % 8)) &&& 1)) 0

/-- Set the single bit at MSB-first position `pos` of a byte buffer to
`bit` (helper for `setbitu`). -/
def setbit1 (b : ℕ → ℕ) (pos bit : ℕ) : ℕ → ℕ :=
  fun k =>
    if k = pos / 8 then
      if bit ≠ 0 then b k ||| (1 <<< (7 - pos % 8))
      else b k &&& (0xFF ^^^ (1 <<< (7 - pos % 8)))
    else b k

/-- Modelled from the spec: `setbitu` of the external shared library
(rtkcmn.c, not under src/): write the low `len` bits of `v`, MSB-first,
at bit position `pos` of a byte buffer. -/
def setbitu (b : ℕ → ℕ) (pos len v : ℕ) : ℕ → ℕ :=
  (List.range len).foldl (fun bb i => setbit1 bb (pos + i) ((v >>> (len - 1 - i)) &&& 1)) b

/-- Point update of a one-index function (models writing one array cell). -/
def updF {α : Type} (g : ℕ → α) (i : ℕ) (v : α) : ℕ → α :=
  fun k => if k = i then v else g k

/-- Point update of a two-index function (models writing one cell of a
2-D array such as `raw->lockt[sat-1][f-1]` or `raw->subfrm[sat-1][k]`). -/
def upd2 {α : Type} (g : ℕ → ℕ → α) (i j : ℕ) (v : α) : ℕ → ℕ → α :=
  fun a b => if a = i ∧ b = j then v else g a b

/-! ## Stream framer (`sync_ubx` / `input_ubx`) -/

/-- The framer-relevant fields of `raw_t`: accumulated byte count
`nbyte`, expected frame length `len`, and the frame buffer `buff`. -/
structure Framer where
  nbyte : ℕ
  len : ℕ
  buff : ℕ → ℕ

/-- `sync_ubx` of ublox.c: slide the incoming byte into the two-byte
window `buff[0..1]` and test for the sync pattern `0xB5 0x62`. -/
def sync_ubx (b : ℕ → ℕ) (data : ℕ) : (ℕ → ℕ) × Bool :=
  let b' : ℕ → ℕ := fun i => if i = 0 then b 1 else if i = 1 then data else b i
  (b', (b' 0 == 0xB5) && (b' 1 == 0x62))

/-- The framing layer of `input_ubx` of ublox.c.  One input byte drives
the accumulator; a completed frame is handed to `dec`, which abstracts
the `decode_ubx` call (checksum verification and dispatch).  `maxrawlen`
is the external constant `MAXRAWLEN` of rtklib.h. -/
def input_ubx (maxrawlen : ℕ) (dec : Framer → Int) (s : Framer) (data : ℕ) :
    Int × Framer :=
  if s.nbyte = 0 then
    let bs := sync_ubx s.buff data
    if bs.2 then (0, { s with buff := bs.1, nbyte := 2 })
    else (0, { s with buff := bs.1 })
  else
    let b' : ℕ → ℕ := fun i => if i = s.nbyte then data else s.buff i
    let nb := s.nbyte + 1
    let len' := if nb = 6 then u2 b' 4 + 8 else s.len
    if nb = 6 ∧ maxrawlen < len' then
      (-1, { buff := b', nbyte := 0, len := len' })
    else if nb < 6 ∨ nb < len' then
      (0, { buff := b', nbyte := nb, len := len' })
    else
      (dec { buff := b', nbyte := 0, len := len' },
       { buff := b', nbyte := 0, len := len' })

/-- The reachable-state invariant of the framer (§4.C of the spec):
either idle, or inside the header, or inside the body with the decoded
length already validated against `MAXRAWLEN`. -/
def FramerInv (maxrawlen : ℕ) (s : Framer) : Prop :=
  s.nbyte = 0 ∨ (2 ≤ s.nbyte ∧ s.nbyte < 6) ∨
    (6 ≤ s.nbyte ∧ s.nbyte < s.len ∧ s.len ≤ maxrawlen)

instance (maxrawlen : ℕ) (s : Framer) : Decidable (FramerInv maxrawlen s) := by
  unfold FramerInv; infer_instance

/-! ## External constants and the satellite-number library

ublox.c includes rtklib.h, which is not under src/.  The constants and
the PRN-to-satellite mapping below are modelled from the spec (§3, §4.D,
§6): only their distinctness and ranges matter to the claims. -/

/-- Modelled from the spec: system identifiers `SYS_*` of rtklib.h. -/
def SYS_GPS : ℕ := 0x01
def SYS_SBS : ℕ := 0x02
def SYS_GLO : ℕ := 0x04
def SYS_GAL : ℕ := 0x08
def SYS_QZS : ℕ := 0x10
def SYS_CMP : ℕ := 0x20

/-- Modelled from the spec: observation-code identifiers `CODE_*` of
rtklib.h used by this file (`CODE_NONE = 0`). -/
def CODE_NONE : ℕ := 0
def CODE_L1C : ℕ := 1
def CODE_L1B : ℕ := 11
def CODE_L1X : ℕ := 12
def CODE_L2S : ℕ := 16
def CODE_L2L : ℕ := 17
def CODE_L2C : ℕ := 14
def CODE_L7I : ℕ := 27
def CODE_L7Q : ℕ := 28
def CODE_L2I : ℕ := 40
def CODE_L1I : ℕ := 47

/-- `LLI_SLIP` of rtklib.h (loss-of-lock: cycle slip). -/
def LLI_SLIP : ℕ := 0x01
/-- `LLI_HALFC` of rtklib.h (loss-of-lock: half-cycle not resolved). -/
def LLI_HALFC : ℕ := 0x02

/-- Speed of light `CLIGHT` (m/s) of rtklib.h. -/
def CLIGHT : ℚ := 299792458
/-- GPS L1 frequency `FREQL1` (Hz) of rtklib.h. -/
def FREQL1 : ℚ := 1575420000

/-- Modelled from the spec: the external satellite-number library
`satno(sys,prn)` (rtkcmn.c, declared out of scope in §1): a 1-based,
constellation-blocked satellite id in `[1, MAXSAT]`, and `0` for an
out-of-range PRN.  QZSS PRNs start at `MINPRNQZS = 193`, SBAS PRNs at
`MINPRNSBS = 120`. -/
def satno (sys prn : ℕ) : ℕ :=
  if sys = SYS_GPS then (if 1 ≤ prn ∧ prn ≤ 32 then prn else 0)
  else if sys = SYS_GLO then (if 1 ≤ prn ∧ prn ≤ 27 then 32 + prn else 0)
  else if sys = SYS_GAL then (if 1 ≤ prn ∧ prn ≤ 36 then 59 + prn else 0)
  else if sys = SYS_QZS then (if 193 ≤ prn ∧ prn ≤ 202 then 95 + (prn - 192) else 0)
  else if sys = SYS_CMP then (if 1 ≤ prn ∧ prn ≤ 63 then 105 + prn else 0)
  else if sys = SYS_SBS then (if 120 ≤ prn ∧ prn ≤ 142 then 168 + (prn - 119) else 0)
  else 0

/-! ## Signal classifier (`ubx_sys` / `ubx_sig` / `sig_idx`) -/

/-- `ubx_sys` of ublox.c: map the UBX `gnssId` to a system mask. -/
def ubx_sys (gnssid : ℕ) : ℕ :=
  if gnssid = 0 then SYS_GPS
  else if gnssid = 1 then SYS_SBS
  else if gnssid = 2 then SYS_GAL
  else if gnssid = 3 then SYS_CMP
  else if gnssid = 5 then SYS_QZS
  else if gnssid = 6 then SYS_GLO
  else 0

/-- `ubx_sig` of ublox.c: map (system, UBX `sigId`) to an observation
code. -/
def ubx_sig (sys sigid : ℕ) : ℕ :=
  if sys = SYS_GPS then
    (if sigid = 0 then CODE_L1C else if sigid = 3 then CODE_L2L
     else if sigid = 4 then CODE_L2S else CODE_NONE)
  else if sys = SYS_GLO then
    (if sigid = 0 then CODE_L1C else if sigid = 2 then CODE_L2C else CODE_NONE)
  else if sys = SYS_GAL then
    (if sigid = 0 then CODE_L1C else if sigid = 1 then CODE_L1B
     else if sigid = 5 then CODE_L7I else if sigid = 6 then CODE_L7Q else CODE_NONE)
  else if sys = SYS_QZS then
    (if sigid = 0 then CODE_L1C else if sigid = 5 then CODE_L2L else CODE_NONE)
  else if sys = SYS_CMP then
    (if sigid = 0 then CODE_L2I else if sigid = 1 then CODE_L2I
     else if sigid = 2 then CODE_L7I else if sigid = 3 then CODE_L7I else CODE_NONE)
  else if sys = SYS_SBS then CODE_L1C
  else CODE_NONE

/-- `sig_idx` of ublox.c: map (system, observation code) to the 1-based
frequency-slot index in the observation record (`0` = reject). -/
def sig_idx (sys code : ℕ) : ℕ :=
  if sys = SYS_GPS then
    (if code = CODE_L1C then 1 else if code = CODE_L2L then 2
     else if code = CODE_L2S then 2 else 0)
  else if sys = SYS_GLO then
    (if code = CODE_L1C then 1 else if code = CODE_L2C then 2 else 0)
  else if sys = SYS_GAL then
    (if code = CODE_L1C then 1 else if code = CODE_L1B then 1
     else if code = CODE_L7I then 2 else if code = CODE_L7Q then 2 else 0)
  else if sys = SYS_QZS then
    (if code = CODE_L1C then 1 else if code = CODE_L2L then 2 else 0)
  else if sys = SYS_CMP then
    (if code = CODE_L1I ∨ code = CODE_L2I then 1
     else if code = CODE_L7I then 2 else 0)
  else if sys = SYS_SBS then
    (if code = CODE_L1C then 1 else 0)
  else 0

/-! ## GNSS time -/

/-- The `gtime_t` record of rtklib.h: integer seconds plus a fractional
part (the C `double` fraction embedded as `ℚ`). -/
structure GTime where
  time : ℤ
  sec : ℚ
  deriving DecidableEq

/-- `timeadd` of the external time library (rtkcmn.c): add seconds,
renormalising the fractional part. -/
def timeadd (t : GTime) (s : ℚ) : GTime :=
  let tt : ℤ := ⌊t.sec + s⌋
  { time := t.time + tt, sec := t.sec + s - tt }

/-- `timediff` of the external time library (rtkcmn.c): difference in
seconds. -/
def timediff (t1 t2 : GTime) : ℚ :=
  ((t1.time - t2.time : ℤ) : ℚ) + t1.sec - t2.sec

/-- The external GNSS calendar conversions used by ublox.c, kept
abstract: `gpst2time` builds an epoch from (week, tow), `time2gpst`
returns (tow, week), `gpst2utc` applies the leap-second table.  Every
theorem quantifies over this record. -/
structure TimeLib where
  gpst2time : ℤ → ℚ → GTime
  time2gpst : GTime → ℚ × ℤ
  gpst2utc : GTime → GTime

/-! ## Receiver options

The C code scans the free-form option string `raw->opt` with
`strstr`/`sscanf` (e.g. `-EPHALL`, `-MAX_STD_CP=<n>`).  The embedding
abstracts the string scan into its result: a `some` value means the
dash-option is present (with its parsed number), `none` that it is
absent. -/
structure UbxOpt where
  ephall : Bool
  invcp : Bool
  galfnav : Bool
  tadj : Option ℚ
  maxStdCp : Option ℤ
  stdSlip : Option ℤ
  trkmAdj : Option ℤ

/-- `cpstd_valid` as computed by `decode_rxmrawx`: the `-MAX_STD_CP`
option value when present, else the default `MAX_CPSTD_VALID = 5`. -/
def cpstdValid (opt : UbxOpt) : ℤ :=
  match opt.maxStdCp with
  | some v => v
  | none => 5

/-- `cpstd_slip` as computed by `decode_rxmrawx`: the `-STD_SLIP`
option value when present, else the default `CPSTD_SLIP = 15`. -/
def cpstdSlip (opt : UbxOpt) : ℤ :=
  match opt.stdSlip with
  | some v => v
  | none => 15

/-! ## Receiver state (the subset of `raw_t` that ublox.c mutates) -/

/-- The ephemeris fields of `eph_t` that ublox.c reads or writes
(`decode_frame` / `decode_gal_inav` fill the rest; they stay abstract). -/
structure Eph where
  sat : ℕ
  iode : ℤ
  iodc : ℤ
  toe : GTime
  toc : GTime
  deriving DecidableEq

/-- The GLONASS ephemeris fields of `geph_t` that ublox.c reads or
writes. -/
structure Geph where
  sat : ℕ
  iode : ℤ
  frq : ℤ
  tof : GTime
  deriving DecidableEq

/-- One row of `obs.data`: per-satellite observation, slot-indexed
fields (`L`, `P` …, index `f-1`).  `SNR`, `LLI`, `code`, `qualL`,
`qualP` are unsigned-char valued. -/
structure ObsData where
  time : GTime
  sat : ℕ
  rcv : ℕ
  L : ℕ → ℚ
  P : ℕ → ℚ
  D : ℕ → ℚ
  SNR : ℕ → ℕ
  LLI : ℕ → ℕ
  code : ℕ → ℕ
  qualL : ℕ → ℕ
  qualP : ℕ → ℕ

/-- A fresh observation row as initialised by the decoders (all slots
zero, `code = CODE_NONE`, `rcv = 0`). -/
def blankObs (time : GTime) (sat : ℕ) : ObsData :=
  { time := time, sat := sat, rcv := 0,
    L := fun _ => 0, P := fun _ => 0, D := fun _ => 0,
    SNR := fun _ => 0, LLI := fun _ => 0, code := fun _ => 0,
    qualL := fun _ => 0, qualP := fun _ => 0 }

/-- The decoder-visible receiver state: the fields of `raw_t` mutated by
the ublox.c decoders.  `obs` models `obs.data[0..n-1]` (its length is
`obs.n`); `lockt`, `halfc`, `lockflag` are indexed `[sat-1][f-1]` as in
the C; `subfrm` is indexed `[sat-1][byte]`; `navEph` `[sat-1]`;
`navGeph` `[prn-1]`.  The diagnostic-only `msgtype` annotation is not
modelled. -/
structure RxState where
  time : GTime
  obs : List ObsData
  lockt : ℕ → ℕ → ℚ
  halfc : ℕ → ℕ → ℕ
  lockflag : ℕ → ℕ → ℤ
  subfrm : ℕ → ℕ → ℕ
  navEph : ℕ → Eph
  navGeph : ℕ → Geph
  ephsat : ℕ

/-! ## `decode_rxmraw` (legacy raw measurement data) -/

/-- Truncation toward zero of a rational (the C `(integer)(double)`
cast). -/
def qtrunc (x : ℚ) : ℤ := if 0 ≤ x then ⌊x⌋ else -⌊-x⌋

/-- The C cast `(unsigned char)(double)`: truncate toward zero, reduce
mod 256 (well-defined only for in-range values; out-of-range casts are
UB in C and the decoders never produce them for legal frames). -/
def ucharOfQ (x : ℚ) : ℕ := ((qtrunc x) % 256).toNat

/-- One 24-byte satellite block of an RXM-RAW frame, after the field
reads `R8/R4/U1/I1` (the IEEE-754 byte decoding itself is external). -/
structure RawMeas where
  L : ℚ
  P : ℚ
  D : ℚ
  prn : ℕ
  snrI : ℤ
  lli : ℕ

/-- The per-satellite body of the `decode_rxmraw` loop: build the
observation row and update the lock-time state.  Returns `none` when
`satno` rejects the PRN (the C `continue`). -/
def rxmrawStep (opt : UbxOpt) (time : GTime) (toff tt : ℚ) (m : RawMeas)
    (lockt : ℕ → ℕ → ℚ) : Option (ObsData × (ℕ → ℕ → ℚ)) :=
  let L0 := m.L - toff * FREQL1
  let L0 := if opt.invcp then -L0 else L0
  let P0 := m.P - toff * CLIGHT
  let snr := ucharOfQ ((m.snrI : ℚ) * 4 + 1/2)
  let sat := satno (if 120 ≤ m.prn then SYS_SBS else SYS_GPS) m.prn
  if sat = 0 then none
  else
    let lockt' :=
      if m.lli &&& 1 ≠ 0 then upd2 lockt (sat - 1) 0 0
      else if tt < 1 ∨ 10 < tt then upd2 lockt (sat - 1) 0 0
      else upd2 lockt (sat - 1) 0 (lockt (sat - 1) 0 + tt)
    some
      ({ blankObs time sat with
          L := updF (fun _ => 0) 0 L0, P := updF (fun _ => 0) 0 P0,
          D := updF (fun _ => 0) 0 m.D, SNR := updF (fun _ => 0) 0 snr,
          LLI := updF (fun _ => 0) 0 m.lli,
          code := updF (fun _ => 0) 0 CODE_L1C },
       lockt')

/-- The `decode_rxmraw` satellite loop (`i < nsat && i < MAXOBS`). -/
def rxmrawGo (opt : UbxOpt) (time : GTime) (toff tt : ℚ) (maxobs : ℕ) :
    List RawMeas → List ObsData → (ℕ → ℕ → ℚ) → List ObsData × (ℕ → ℕ → ℚ)
  | [], acc, lockt => (acc, lockt)
  | m :: rest, acc, lockt =>
    if maxobs ≤ acc.length then (acc, lockt)
    else
      match rxmrawStep opt time toff tt m lockt with
      | none => rxmrawGo opt time toff tt maxobs rest acc lockt
      | some (o, lockt') => rxmrawGo opt time toff tt maxobs rest (acc ++ [o]) lockt'

/-- `decode_rxmraw` of ublox.c, over the parsed header fields
(`tow` in ms, `week`, `nsat`) and the parsed satellite blocks.  `len` is
the full frame length `raw->len`; `maxobs` is the external constant
`MAXOBS`. -/
def decode_rxmraw (tl : TimeLib) (opt : UbxOpt) (maxobs : ℕ)
    (len : ℕ) (tow : ℚ) (week : ℕ) (nsat : ℕ) (svs : List RawMeas)
    (raw : RxState) : Int × RxState :=
  if len < 12 + 24 * nsat then (-1, raw)
  else
    let time := tl.gpst2time week (tow * (1/1000))
    if week = 0 then (0, raw)
    else
      let tadj := opt.tadj.getD 0
      let (time, toff) :=
        if 0 < tadj then
          let tn := (tl.time2gpst time).1 / tadj
          let toff := (tn - ⌊tn + 1/2⌋) * tadj
          (timeadd time (-toff), toff)
        else (time, 0)
      let tt := timediff time raw.time
      let (obs, lockt') := rxmrawGo opt time toff tt maxobs (svs.take nsat) [] raw.lockt
      (1, { raw with time := time, obs := obs, lockt := lockt' })

/-! ## `decode_rxmrawx` (multi-GNSS raw measurement data) -/

/-- One 32-byte measurement block of an RXM-RAWX frame, after the field
reads (`prStd`/`cpStd` are the raw bytes; the `& 15` masking happens in
the decoder as in the C). -/
structure RawxMeas where
  P : ℚ
  L : ℚ
  D : ℚ
  gnss : ℕ
  svid : ℕ
  sigid : ℕ
  frqid : ℕ
  lockt : ℕ
  cn0 : ℕ
  prstdB : ℕ
  cpstdB : ℕ
  tstat : ℕ

/-- ublox.c line `if (!(tstat&1)) P=0.0;`: invalidate the pseudorange
unless the tracking status declares it valid. -/
def rxmrawxValidP (tstat : ℕ) (P : ℚ) : ℚ :=
  if tstat &&& 1 = 0 then 0 else P

/-- ublox.c line `if (!(tstat&2)||L==-0.5||cpstd>cpstd_valid) L=0.0;`:
invalidate the carrier phase. -/
def rxmrawxValidL (cpv : ℤ) (tstat cpstd : ℕ) (L : ℚ) : ℚ :=
  if tstat &&& 2 = 0 ∨ L = -(1/2 : ℚ) ∨ cpv < (cpstd : ℤ) then 0 else L

/-- The per-(sat,slot) cycle-slip state read and written by
`decode_rxmrawx` (one cell of `raw->lockt` / `raw->halfc` /
`raw->lockflag`). -/
structure SlotSt where
  lockt : ℚ
  halfc : ℕ
  lockflag : ℤ
  deriving DecidableEq

/-- ublox.c lines 433-447: half-cycle flags, slip inference, the
latched `lockflag`, the state stores, and the LLI composition.  Note
the C stores `raw->halfc[sat-1][f-1]=halfc` *before* the
`LLI|=halfc!=raw->halfc[...]` comparison, so that term reads the
just-stored value. -/
def rxmrawxLLI (cps : ℤ) (sysIsSbs : Bool) (lockt cpstd tstat : ℕ) (L : ℚ)
    (st : SlotSt) : ℕ × SlotSt :=
  let halfv : ℕ :=
    if sysIsSbs then (if 8000 < lockt then 1 else 0)
    else (if tstat &&& 4 ≠ 0 then 1 else 0)
  let halfc : ℕ := if tstat &&& 8 ≠ 0 then 1 else 0
  let slip : ℤ :=
    if lockt = 0 ∨ (lockt : ℚ) * (1/1000) < st.lockt ∨ halfc ≠ st.halfc then 1 else 0
  let slip : ℤ := if cps ≤ (cpstd : ℤ) then (LLI_SLIP : ℤ) else slip
  let lockflag' : ℤ := if slip ≠ 0 then slip else st.lockflag
  let st' : SlotSt := ⟨(lockt : ℚ) * (1/1000), halfc, lockflag'⟩
  let lli : ℕ := if halfv = 0 ∧ L ≠ 0 then LLI_HALFC else 0
  let lli : ℕ := lli ||| (if halfc ≠ st'.halfc then 1 else 0)
  let lli : ℕ := if L ≠ 0 then lli ||| (if 0 < st'.lockflag then LLI_SLIP else 0) else lli
  (lli, st')

/-- The observation-code selection of `decode_rxmrawx`: the signal
classifier for version ≥ 1 frames, else the fixed per-system
fallback. -/
def rxmrawxCode (ver sys sigid : ℕ) : ℕ :=
  if 1 ≤ ver then ubx_sig sys sigid
  else if sys = SYS_CMP then CODE_L2I
  else if sys = SYS_GAL then CODE_L1X
  else CODE_L1C

/-- The loop state of the `decode_rxmrawx` measurement loop. -/
structure RxLoopSt where
  obs : List ObsData
  lockt : ℕ → ℕ → ℚ
  halfc : ℕ → ℕ → ℕ
  lockflag : ℕ → ℕ → ℤ

/-- Write the slot-`(f-1)` observation fields of one row (the block of
`raw->obs.data[j].*[f-1]=...` stores in `decode_rxmrawx`). -/
def obsSetSlot (o : ObsData) (f1 : ℕ) (Lv Pv Dv : ℚ)
    (cpstd prstd snr lli code : ℕ) : ObsData :=
  { o with
    L := updF o.L f1 Lv, P := updF o.P f1 Pv,
    qualL := updF o.qualL f1 cpstd, qualP := updF o.qualP f1 prstd,
    D := updF o.D f1 Dv, SNR := updF o.SNR f1 snr,
    LLI := updF o.LLI f1 lli, code := updF o.code f1 code }

/-- One iteration of the `decode_rxmrawx` measurement loop (one 32-byte
block).  `sigfreq` abstracts `sig_freq` (external frequency constants);
`ver` is the frame version byte. -/
def rxmrawxStep (nfx : ℕ) (sigfreq : ℕ → ℕ → ℤ → ℚ) (cpv cps : ℤ)
    (toff : ℚ) (time : GTime) (ver : ℕ) (m : RawxMeas) (st : RxLoopSt) : RxLoopSt :=
  let cpstd := m.cpstdB &&& 15
  let prstd0 := m.prstdB &&& 15
  let prstd := 2 ^ (if 5 ≤ prstd0 then prstd0 - 5 else 0)
  let P := rxmrawxValidP m.tstat m.P
  let L := rxmrawxValidL cpv m.tstat cpstd m.L
  let sys := ubx_sys m.gnss
  if sys = 0 then st
  else
    let prn := m.svid + (if sys = SYS_QZS then 192 else 0)
    let sat := satno sys prn
    if sat = 0 then st
    else
      let code := rxmrawxCode ver sys m.sigid
      let f := sig_idx sys code
      if f = 0 ∨ nfx < f then st
      else
        let P := if toff ≠ 0 ∧ L ≠ 0 then P - toff * CLIGHT else P
        let L := if toff ≠ 0 ∧ L ≠ 0 then L - toff * sigfreq sys f ((m.frqid : ℤ) - 7) else L
        let (lli, slot') := rxmrawxLLI cps (sys = SYS_SBS) m.lockt cpstd m.tstat L
          ⟨st.lockt (sat - 1) (f - 1), st.halfc (sat - 1) (f - 1),
           st.lockflag (sat - 1) (f - 1)⟩
        let lockt' := upd2 st.lockt (sat - 1) (f - 1) slot'.lockt
        let halfc' := upd2 st.halfc (sat - 1) (f - 1) slot'.halfc
        let lockflag' := upd2 st.lockflag (sat - 1) (f - 1) slot'.lockflag
        let prstd := min prstd 9
        let cpstd := min cpstd 9
        let snr := (m.cn0 * 4) % 256
        let j := (st.obs.findIdx? (fun o => o.sat = sat)).getD st.obs.length
        let obs1 := if j = st.obs.length then st.obs ++ [blankObs time sat] else st.obs
        let row := (obs1.getD j (blankObs time sat))
        let obs2 := obs1.set j (obsSetSlot row (f - 1) L P m.D cpstd prstd snr lli code)
        let lockflag'' := if L ≠ 0 then upd2 lockflag' (sat - 1) (f - 1) 0 else lockflag'
        { obs := obs2, lockt := lockt', halfc := halfc', lockflag := lockflag'' }

/-- The `decode_rxmrawx` measurement loop (`i < nmeas && n < MAXOBS`). -/
def rxmrawxGo (nfx maxobs : ℕ) (sigfreq : ℕ → ℕ → ℤ → ℚ) (cpv cps : ℤ)
    (toff : ℚ) (time : GTime) (ver : ℕ) :
    List RawxMeas → RxLoopSt → RxLoopSt
  | [], st => st
  | m :: rest, st =>
    if maxobs ≤ st.obs.length then st
    else rxmrawxGo nfx maxobs sigfreq cpv cps toff time ver rest
      (rxmrawxStep nfx sigfreq cpv cps toff time ver m st)

/-- `decode_rxmrawx` of ublox.c, over the parsed header (`tow` in s,
`week`, `nmeas`, `ver`) and the parsed measurement blocks.  `len` is
`raw->len`; `nfx` is the external constant `NFREQ+NEXOBS`; `maxobs` is
`MAXOBS`; `sigfreq` abstracts `sig_freq`. -/
def decode_rxmrawx (tl : TimeLib) (opt : UbxOpt) (nfx maxobs : ℕ)
    (sigfreq : ℕ → ℕ → ℤ → ℚ) (len : ℕ) (tow : ℚ) (week : ℕ)
    (nmeas ver : ℕ) (meas : List RawxMeas) (raw : RxState) : Int × RxState :=
  if len < 24 then (-1, raw)
  else if len < 24 + 32 * nmeas then (-1, raw)
  else if week = 0 then (0, raw)
  else
    let time := tl.gpst2time week tow
    let tadj := opt.tadj.getD 0
    let cpv := cpstdValid opt
    let cps := cpstdSlip opt
    let (time, toff) :=
      if 0 < tadj then
        let tn := (tl.time2gpst time).1 / tadj
        let toff := (tn - ⌊tn + 1/2⌋) * tadj
        (timeadd time (-toff), toff)
      else (time, 0)
    let st := rxmrawxGo nfx maxobs sigfreq cpv cps toff time ver (meas.take nmeas)
      ⟨[], raw.lockt, raw.halfc, raw.lockflag⟩
    (1, { raw with time := time, obs := st.obs, lockt := st.lockt,
                   halfc := st.halfc, lockflag := st.lockflag })

/-! ## `decode_ephem` (GPS/QZSS LNAV ephemeris commit) -/

/-- `decode_ephem` of ublox.c.  The three `decode_frame` calls on
subframes 1-3 belong to the external frame-algebra library; `df` is
their combined outcome: `none` when any of them fails (the C returns 0),
`some eph` when all three succeed with result `eph`. -/
def decode_ephem (opt : UbxOpt) (sat : ℕ) (df : Option Eph) (raw : RxState) :
    Int × RxState :=
  match df with
  | none => (0, raw)
  | some eph =>
    if ¬opt.ephall ∧ eph.iode = (raw.navEph (sat - 1)).iode ∧
        eph.iodc = (raw.navEph (sat - 1)).iodc then (0, raw)
    else
      (2, { raw with navEph := updF raw.navEph (sat - 1) { eph with sat := sat },
                     ephsat := sat })

/-! ## `decode_enav` (Galileo I/NAV page) -/

/-- The byte-swap of `decode_enav`/`decode_gnav`/`decode_snav`:
`buff[k] = p[4*(k/4) + 3 - k%4]` (swap within each 4-byte group), where
`p` is the payload from `raw->buff+6+off`. -/
def swap4 (p : ℕ → ℕ) : ℕ → ℕ :=
  fun k => p ((k / 4) * 4 + (3 - k % 4))

/-- Shift a byte buffer by 16 bytes (the C pointer `buff+16`). -/
def shift16 (b : ℕ → ℕ) : ℕ → ℕ := fun i => b (i + 16)

/-- The CRC input buffer of `decode_enav`: a zeroed 26-byte buffer with
the 15 bytes of the even half written at bit offset 4 and the 11 bytes
of the odd half at bit offset 118 (4-bit pad + 114 + 82 bits). -/
def enavCrcBuff (buff : ℕ → ℕ) : ℕ → ℕ :=
  let b1 := (List.range 15).foldl
    (fun b i => setbitu b (4 + 8 * i) 8 (getbitu buff (8 * i) 8)) (fun _ => 0)
  (List.range 11).foldl
    (fun b i => setbitu b (118 + 8 * i) 8 (getbitu (shift16 buff) (8 * i) 8)) b1

/-- The `subfrm` update of `decode_enav` for an accepted word: clear the
word-presence mask on word type 2, save the 112 + 16 page-data bits at
offset `type*16`, and set the word's mask bit at offset 112. -/
def enavSaveSubfrm (sat ty : ℕ) (buff : ℕ → ℕ) (sf : ℕ → ℕ → ℕ) : ℕ → ℕ → ℕ :=
  let sf1 := if ty = 2 then upd2 sf (sat - 1) 112 0 else sf
  let sf2 := (List.range 14).foldl
    (fun s i => upd2 s (sat - 1) (ty * 16 + i) (getbitu buff (2 + 8 * i) 8)) sf1
  let sf3 := (List.range 2).foldl
    (fun s i => upd2 s (sat - 1) (ty * 16 + 14 + i)
      (getbitu (shift16 buff) (2 + 8 * i) 8)) sf2
  upd2 sf3 (sat - 1) 112 ((sf3 (sat - 1) 112) ||| (1 <<< ty))

/-- `decode_enav` of ublox.c.  `crc24q` abstracts the external
`rtk_crc24q`; `galinav` abstracts the external `decode_gal_inav`
(returning `none` on failure); `p` is the frame payload starting at
`raw->buff+6+off`. -/
def decode_enav (crc24q : (ℕ → ℕ) → ℕ → ℕ) (galinav : (ℕ → ℕ) → Option Eph)
    (opt : UbxOpt) (len off sat : ℕ) (p : ℕ → ℕ) (raw : RxState) :
    Int × RxState :=
  if len < 44 + off then (-1, raw)
  else
    let buff := swap4 p
    let part1 := getbitu buff 0 1
    let page1 := getbitu buff 1 1
    let part2 := getbitu (shift16 buff) 0 1
    let page2 := getbitu (shift16 buff) 1 1
    if page1 = 1 ∨ page2 = 1 then (0, raw)
    else if part1 ≠ 0 ∨ part2 ≠ 1 then (-1, raw)
    else if crc24q (enavCrcBuff buff) 25 ≠ getbitu (shift16 buff) 82 24 then (-1, raw)
    else
      let ty := getbitu buff 2 6
      if 6 < ty then (0, raw)
      else
        let sf4 := enavSaveSubfrm sat ty buff raw.subfrm
        let raw1 := { raw with subfrm := sf4 }
        if sf4 (sat - 1) 112 ≠ 0x7F then (0, raw1)
        else if opt.galfnav then (0, raw1)
        else
          match galinav (sf4 (sat - 1)) with
          | none => (0, raw1)
          | some eph =>
            if eph.sat ≠ sat then (-1, raw1)
            else if ¬opt.ephall ∧ eph.iode = (raw1.navEph (sat - 1)).iode ∧
                timediff eph.toe (raw1.navEph (sat - 1)).toe = 0 ∧
                timediff eph.toc (raw1.navEph (sat - 1)).toc = 0 then (0, raw1)
            else
              (2, { raw1 with
                      navEph := updF raw1.navEph (sat - 1) { eph with sat := sat },
                      ephsat := sat })

/-! ## `decode_gnav` (GLONASS navigation string) -/

/-- The `subfrm` update of `decode_gnav` for an accepted string number
`m`: flush strings 1-4 (four 10-byte `memset`s over offsets 0..39) and
latch the two frame-id bytes at offsets 150-151 when the frame id
changed, then `memcpy` the 10-byte string into offset `(m-1)*10`. -/
def gnavSaveString (sat m : ℕ) (buff : ℕ → ℕ) (sf : ℕ → ℕ → ℕ) : ℕ → ℕ → ℕ :=
  let sf1 :=
    if sf (sat - 1) 150 ≠ buff 12 ∨ sf (sat - 1) 151 ≠ buff 13 then
      let z := (List.range 40).foldl (fun s i => upd2 s (sat - 1) i 0) sf
      upd2 (upd2 z (sat - 1) 150 (buff 12)) (sat - 1) 151 (buff 13)
    else sf
  (List.range 10).foldl (fun s i => upd2 s (sat - 1) ((m - 1) * 10 + i) (buff i)) sf1

/-- `decode_gnav` of ublox.c.  `teststr` abstracts the external
`test_glostr` (Hamming check); `glostr` abstracts the external
`decode_glostr` (returning `none` on failure); `p` is the payload from
`raw->buff+6+off`; `frq` is the frequency-slot byte; `prn` the PRN of
`sat`. -/
def decode_gnav (teststr : (ℕ → ℕ) → Bool) (glostr : (ℕ → ℕ) → Option Geph)
    (opt : UbxOpt) (len off frq sat prn : ℕ) (p : ℕ → ℕ) (raw : RxState) :
    Int × RxState :=
  if len < 24 + off then (-1, raw)
  else
    let buff := swap4 p
    if ¬teststr buff then (-1, raw)
    else
      let m := getbitu buff 1 4
      if m < 1 ∨ 15 < m then (-1, raw)
      else
        let raw1 := { raw with subfrm := gnavSaveString sat m buff raw.subfrm }
        if m ≠ 4 then (0, raw1)
        else
          match glostr (raw1.subfrm (sat - 1)) with
          | none => (0, raw1)
          | some g0 =>
            let g := { g0 with tof := raw.time }
            if g.sat ≠ sat then (0, raw1)
            else
              let g := { g with frq := (frq : ℤ) - 7 }
              if ¬opt.ephall ∧ g.iode = (raw1.navGeph (prn - 1)).iode then (0, raw1)
              else
                (2, { raw1 with navGeph := updF raw1.navGeph (prn - 1) g,
                                ephsat := sat })

/-! ## `decode_trkmeas` (undocumented TRK-MEAS tracking data) -/

/-- `ROUND(x) = (int)floor(x+0.5)` of ublox.c, on exact rationals. -/
def roundC (x : ℚ) : ℤ := ⌊x + 1/2⌋

/-- `P2_32 = 2^-32` applied to an `I8` raw value, as a rational. -/
def p2_32 (v : ℤ) : ℚ := (v : ℚ) * (1 / 2 ^ 32)

/-- The GLONASS pseudorange-bias table `P_adj_fw2` (firmware 2.30) of
`decode_trkmeas`, in metres, indexed by `frq+7`. -/
def P_adj_fw2 : List ℤ := [0, 0, 0, 0, 1, 3, 2, 0, -4, -3, -9, -8, -7, -4, 0]

/-- The GLONASS pseudorange-bias table `P_adj_fw3` (firmware 3.01) of
`decode_trkmeas`. -/
def P_adj_fw3 : List ℤ := [11, 13, 13, 14, 14, 13, 12, 10, 8, 6, 5, 5, 5, 7, 0]

/-- One 56-byte channel record of a TRK-MEAS frame, after the field
reads (`tsRaw`, `adrRaw` are the exact `I8` integers, `dopRaw` the `I4`,
`snrRaw` the `U2`). -/
structure TrkChan where
  qi : ℕ
  gnssid : ℕ
  svid : ℕ
  frqid : ℕ
  flag : ℕ
  lock1 : ℕ
  lock2 : ℕ
  snrRaw : ℕ
  tsRaw : ℤ
  adrRaw : ℤ
  dopRaw : ℤ

/-- The first `decode_trkmeas` channel scan: the largest GPS
transmission time (`tr` starts at `-1`). -/
def trkmeasMaxTr (chs : List TrkChan) : ℚ :=
  chs.foldl
    (fun tr c =>
      if c.qi < 4 ∨ ubx_sys c.gnssid ≠ SYS_GPS then tr
      else
        let t := p2_32 c.tsRaw * (1/1000)
        if tr < t then t else tr)
    (-1)

/-- The per-channel body of the second `decode_trkmeas` loop.  The loop
state is the observation list built so far plus the `raw->lockt` slots
(`[sat-1][0]` holds the last phase-lock count, `[sat-1][1]` the pending
slip flag). -/
def trkmeasStep (fw : ℤ) (utc_gpst : ℚ) (tr : ℚ) (time : GTime)
    (c : TrkChan) (st : List ObsData × (ℕ → ℕ → ℚ)) :
    List ObsData × (ℕ → ℕ → ℚ) :=
  let (acc, lockt) := st
  if c.qi < 4 ∨ 7 < c.qi then st
  else
    let sys := ubx_sys c.gnssid
    if sys = 0 then st
    else
      let prn := c.svid + (if sys = SYS_QZS then 192 else 0)
      let sat := satno sys prn
      if sat = 0 then st
      else
        let ts := p2_32 c.tsRaw * (1/1000)
        let ts := if sys = SYS_CMP then ts + 14
                  else if sys = SYS_GLO then ts - 10800 - utc_gpst else ts
        let tau := tr - ts
        let tau := if tau < -302400 then tau + 604800
                   else if 302400 < tau then tau - 604800 else tau
        let frq : ℤ := (c.frqid : ℤ) - 7
        let snr : ℚ := (c.snrRaw : ℚ) / 256
        let adr : ℚ := p2_32 c.adrRaw + (if c.flag &&& 0x40 ≠ 0 then 1/2 else 0)
        let dop : ℚ := (c.dopRaw : ℚ) * (1/1024) * 10
        -- set slip flag
        let lockt :=
          if c.lock2 = 0 ∨ (c.lock2 : ℚ) < lockt (sat - 1) 0 then
            upd2 lockt (sat - 1) 1 1
          else lockt
        let lockt := upd2 lockt (sat - 1) 0 (c.lock2 : ℚ)
        -- check phase lock
        if c.flag &&& 0x20 = 0 then (acc, lockt)
        else
          let P := tau * CLIGHT
          let P := if sys = SYS_GLO ∧ -7 ≤ frq ∧ frq ≤ 7 then
              (if fw = 2 then P + ((P_adj_fw2.getD (frq + 7).toNat 0 : ℤ) : ℚ)
               else if fw = 3 then P + ((P_adj_fw3.getD (frq + 7).toNat 0 : ℤ) : ℚ)
               else P)
            else P
          let lli := if 0 < lockt (sat - 1) 1 then 1 else 0
          let lli := lli |||
            (if sys = SYS_SBS then (if 142 < c.lock2 then 0 else 2)
             else (if c.flag &&& 0x80 ≠ 0 then 0 else 2))
          let row :=
            { blankObs time sat with
              P := updF (fun _ => 0) 0 P,
              L := updF (fun _ => 0) 0 (-adr),
              D := updF (fun _ => 0) 0 dop,
              SNR := updF (fun _ => 0) 0 (ucharOfQ (snr * 4)),
              code := updF (fun _ => 0) 0 (if sys = SYS_CMP then CODE_L2I else CODE_L1C),
              qualL := updF (fun _ => 0) 0 (8 - c.qi),
              LLI := updF (fun _ => 0) 0 lli }
          let lockt := upd2 lockt (sat - 1) 1 0
          (acc ++ [row], lockt)

/-- `decode_trkmeas` of ublox.c, over the parsed channel records.
`len` is `raw->len`, `nch` the channel-count byte `U1(p+2)`; the
process-lifetime debug array `adrs` is not modelled. -/
def decode_trkmeas (tl : TimeLib) (opt : UbxOpt) (len nch : ℕ)
    (chs : List TrkChan) (raw : RxState) : Int × RxState :=
  if raw.time.time = 0 then (0, raw)
  else
    let fw := opt.trkmAdj.getD 0
    if len < 112 + nch * 56 then (-1, raw)
    else
      let chs := chs.take nch
      let tr := trkmeasMaxTr chs
      if tr < 0 then (0, raw)
      else
        let tr : ℚ := (roundC ((tr + 8/100) / (1/10)) : ℚ) * (1/10)
        let (t, week) := tl.time2gpst raw.time
        let week := if tr < t - 302400 then week + 1
                    else if t + 302400 < tr then week - 1 else week
        let time := tl.gpst2time week tr
        let utc_gpst := timediff (tl.gpst2utc time) time
        let (obs, lockt') := chs.foldl
          (fun st c => trkmeasStep fw utc_gpst tr time c st) ([], raw.lockt)
        if obs.length = 0 then (0, { raw with lockt := lockt' })
        else (1, { raw with time := time, obs := obs, lockt := lockt' })

/-! ## `decode_trkd5` (undocumented TRK-D5 tracking data) -/

/-- One channel record of a TRK-D5 frame, after the field reads.
`qiByte` is `U1(p+41)` (the quality indicator before the `&7` mask),
`sysByte` is `U1(p+56)`, `prnByte` is `U1(p+34)`. -/
structure TrkD5Chan where
  qiByte : ℕ
  sysByte : ℕ
  svid : ℕ
  frqid : ℕ
  prnByte : ℕ
  flag : ℕ
  snrRaw : ℕ
  tsRaw : ℤ
  adrRaw : ℤ
  dopRaw : ℤ

/-- The first `decode_trkd5` channel scan: the largest transmission time
(with the GLONASS time-scale shift applied). -/
def trkd5MaxTr (utc_gpst : ℚ) (chs : List TrkD5Chan) : ℚ :=
  chs.foldl
    (fun tr c =>
      if c.qiByte < 4 then tr
      else
        let t := p2_32 c.tsRaw * (1/1000)
        let t := if ubx_sys c.sysByte = SYS_GLO then t - 10800 - utc_gpst else t
        if tr < t then t else tr)
    (-1)

/-- The per-channel body of the second `decode_trkd5` loop. -/
def trkd5Step (typ : ℕ) (utc_gpst : ℚ) (tr : ℚ) (time : GTime)
    (c : TrkD5Chan) (st : List ObsData × (ℕ → ℕ → ℚ)) :
    List ObsData × (ℕ → ℕ → ℚ) :=
  let (acc, lockt) := st
  let qi := c.qiByte &&& 7
  if qi < 4 ∨ 7 < qi then st
  else
    let (sys, prn) :=
      if typ = 6 then (ubx_sys c.sysByte, c.svid + (if ubx_sys c.sysByte = SYS_QZS then 192 else 0))
      else (if c.prnByte < 120 then SYS_GPS else SYS_SBS, c.prnByte)
    if typ = 6 ∧ sys = 0 then st
    else
      let sat := satno sys prn
      if sat = 0 then st
      else
        let ts := p2_32 c.tsRaw * (1/1000)
        let ts := if sys = SYS_GLO then ts - 10800 - utc_gpst else ts
        let tau := tr - ts
        let tau := if tau < -302400 then tau + 604800
                   else if 302400 < tau then tau - 604800 else tau
        let adr : ℚ :=
          if qi < 6 then 0
          else p2_32 c.adrRaw + (if c.flag &&& 0x01 ≠ 0 then 1/2 else 0)
        let dop : ℚ := (c.dopRaw : ℚ) * (1/1024) * (1/4)
        let snr : ℚ := (c.snrRaw : ℚ) / 256
        let lockt := if snr ≤ 10 then upd2 lockt (sat - 1) 1 1 else lockt
        -- check phase lock
        if c.flag &&& 0x08 = 0 then (acc, lockt)
        else
          let row :=
            { blankObs time sat with
              P := updF (fun _ => 0) 0 (tau * CLIGHT),
              L := updF (fun _ => 0) 0 (-adr),
              D := updF (fun _ => 0) 0 dop,
              SNR := updF (fun _ => 0) 0 (ucharOfQ (snr * 4)),
              code := updF (fun _ => 0) 0 (if sys = SYS_CMP then CODE_L2I else CODE_L1C),
              LLI := updF (fun _ => 0) 0 (if 0 < lockt (sat - 1) 1 then 1 else 0) }
          let lockt := upd2 lockt (sat - 1) 1 0
          (acc ++ [row], lockt)

/-- `decode_trkd5` of ublox.c, over the parsed channel records.  `typ`
is the message-variant byte `U1(p)`; the channel list stands for the
channel slots the C loop walks (`p-raw->buff < raw->len-2`). -/
def decode_trkd5 (tl : TimeLib) (typ : ℕ) (chs : List TrkD5Chan)
    (raw : RxState) : Int × RxState :=
  if raw.time.time = 0 then (0, raw)
  else
    let utc_gpst := timediff (tl.gpst2utc raw.time) raw.time
    let tr := trkd5MaxTr utc_gpst chs
    if tr < 0 then (0, raw)
    else
      let tr : ℚ := (roundC ((tr + 8/100) / (1/10)) : ℚ) * (1/10)
      let (t, week) := tl.time2gpst raw.time
      let week := if tr < t - 302400 then week + 1
                  else if t + 302400 < tr then week - 1 else week
      let time := tl.gpst2time week tr
      let (obs, lockt') := chs.foldl
        (fun st c => trkd5Step typ utc_gpst tr time c st) ([], raw.lockt)
      if obs.length = 0 then (0, { raw with lockt := lockt' })
      else (1, { raw with time := time, obs := obs, lockt := lockt' })

/-! ## `gen_ubx` (outbound CFG frame generator): catalogs -/

/-- The `cmd` CFG command-name catalog of `gen_ubx` in ublox.c. -/
def cmdNames : List String :=
  ["PRT", "USB", "MSG", "NMEA", "RATE", "CFG", "TP", "NAV2", "DAT", "INF", "RST", "RXM", "ANT", "FXN", "SBAS", "LIC", "TM", "TM2", "TMODE", "EKF", "GNSS", "ITFM", "LOGFILTER", "NAV5", "NAVX5", "ODO", "PM2", "PWR", "RINV", "SMGR", "TMODE2", "TMODE3", "TPS", "TXSLOT", "VALSET"]

/-- The `id` CFG message-id catalog of `gen_ubx` in ublox.c. -/
def idTable : List Nat :=
  [0x00, 0x1B, 0x01, 0x17, 0x08, 0x09, 0x07, 0x1A, 0x06, 0x02, 0x04, 0x11, 0x13, 0x0E, 0x16, 0x80, 0x10, 0x19, 0x1D, 0x12, 0x3E, 0x39, 0x47, 0x24, 0x23, 0x1E, 0x3B, 0x57, 0x34, 0x62, 0x36, 0x71, 0x31, 0x53, 0x8A]

/-- The `prm` field-type rows of `gen_ubx` in ublox.c (field-type codes FU1=1 .. FS32=10; the C rows are zero-padded to 32, modelled by `List.getD _ 0`). -/
def prmRows : List (List Nat) :=
  [[1, 1, 2, 3, 3, 2, 2, 2, 2],
   [2, 2, 2, 2, 2, 2, 10, 10, 10],
   [1, 1, 1, 1, 1, 1, 1, 1],
   [1, 1, 1, 1],
   [2, 2, 2],
   [3, 3, 3, 1],
   [3, 3, 5, 1, 2, 6, 6, 7],
   [1, 1, 2, 1, 1, 1, 1, 7, 1, 1, 1, 1, 1, 1, 2, 2, 2, 2, 2, 1, 1, 2, 3, 3],
   [9, 9, 8, 8, 8, 8, 8, 8, 8],
   [1, 1, 1, 1, 1, 1, 1, 1, 1, 1],
   [2, 1, 1],
   [1, 1],
   [2, 2],
   [3, 3, 3, 3, 3, 3, 3, 3],
   [1, 1, 1, 1, 3],
   [2, 2, 2, 2, 2, 2],
   [3, 3, 3],
   [1, 1, 2, 3, 3],
   [3, 7, 7, 7, 3, 3, 3],
   [1, 1, 1, 1, 3, 2, 2, 1, 1, 2],
   [1, 1, 1, 1, 1, 1, 1, 1, 3],
   [3, 3],
   [1, 1, 2, 2, 2, 3],
   [2, 1, 1, 7, 3, 5, 1, 2, 2, 2, 2, 1, 1, 1, 1, 1, 1, 2, 1, 1, 1, 1, 1, 1],
   [2, 2, 3, 1, 1, 1, 1, 1, 1, 1, 1, 1, 1, 2, 1, 1, 1, 1, 1, 1, 1, 1, 1, 1, 2],
   [1, 1, 1, 1, 1, 1, 1, 1, 1],
   [1, 1, 1, 1, 3, 3, 3, 3, 2, 2],
   [1, 1, 1, 1, 3],
   [1, 1],
   [1, 1, 2, 2, 1, 1, 2, 2, 2, 2, 3],
   [1, 1, 2, 7, 7, 7, 3, 3, 3],
   [1, 1, 2, 7, 7, 7, 3, 3, 3],
   [1, 1, 1, 1, 6, 6, 3, 3, 3, 3, 7, 3],
   [1, 1, 1, 1, 3, 3, 3, 3, 3],
   [1, 1, 1, 1]]

/-- The `vcmd` VALSET key-name catalog of `gen_ubx` in ublox.c. -/
def vcmdNames : List String :=
  ["GEOFENCE-CONFLVL", "GEOFENCE-USE_PIO", "GEOFENCE-PINPOL", "GEOFENCE-PIN",
   "GEOFENCE-USE_FENCE1", "GEOFENCE-FENCE1_LAT", "GEOFENCE-FENCE1_LON", "GEOFENCE-FENCE1_RAD",
   "GEOFENCE-USE_FENCE2", "GEOFENCE-FENCE2_LAT", "GEOFENCE-FENCE2_LON", "GEOFENCE-FENCE2_RAD",
   "GEOFENCE-USE_FENCE3", "GEOFENCE-FENCE3_LAT", "GEOFENCE-FENCE3_LON", "GEOFENCE-FENCE3_RAD",
   "GEOFENCE-USE_FENCE4", "GEOFENCE-FENCE4_LAT", "GEOFENCE-FENCE4_LON", "GEOFENCE-FENCE4_RAD",
   "HW-ANT_CFG_VOLTCTRL", "HW-ANT_CFG_SHORTDET", "HW-ANT_CFG_SHORTDET_POL", "HW-ANT_CFG_OPENDET",
   "HW-ANT_CFG_OPENDET_POL", "HW-ANT_CFG_PWRDOWN", "HW-ANT_CFG_PWRDOWN_POL", "HW-ANT_CFG_RECOVER",
   "HW-ANT_SUP_SWITCH_PIN", "HW-ANT_SUP_SHORT_PIN", "HW-ANT_SUP_OPEN_PIN", "I2C-ADDRESS",
   "I2C-EXTENDEDTIMEOUT", "I2C-ENABLED", "I2CINPROT-UBX", "I2CINPROT-NMEA",
   "I2CINPROT-RTCM2X", "I2CINPROT-RTCM3X", "I2COUTPROT-UBX", "I2COUTPROT-NMEA",
   "I2COUTPROT-RTCM3X", "INFMSG-UBX_I2C", "INFMSG-UBX_UART1", "INFMSG-UBX_UART2",
   "INFMSG-UBX_USB", "INFMSG-UBX_SPI", "INFMSG-NMEA_I2C", "INFMSG-NMEA_UART1",
   "INFMSG-NMEA_UART2", "INFMSG-NMEA_USB", "INFMSG-NMEA_SPI", "ITFM-BBTHRESHOLD",
   "ITFM-CWTHRESHOLD", "ITFM-ENABLE", "ITFM-ANTSETTING", "ITFM-ENABLE_AUX",
   "LOGFILTER-RECORD_ENA", "LOGFILTER-ONCE_PER_WAKE_UP_ENA", "LOGFILTER-APPLY_ALL_FILTERS", "LOGFILTER-MIN_INTERVAL",
   "LOGFILTER-TIME_THRS", "LOGFILTER-SPEED_THRS", "LOGFILTER-POSITION_THRS", "MOT-GNSSSPEED_THRS",
   "MOT-GNSSDIST_THRS", "MSGOUT-NMEA_ID_DTM_I2C", "MSGOUT-NMEA_ID_DTM_SPI", "MSGOUT-NMEA_ID_DTM_UART1",
   "MSGOUT-NMEA_ID_DTM_UART2", "MSGOUT-NMEA_ID_DTM_USB", "MSGOUT-NMEA_ID_GBS_I2C", "MSGOUT-NMEA_ID_GBS_SPI",
   "MSGOUT-NMEA_ID_GBS_UART1", "MSGOUT-NMEA_ID_GBS_UART2", "MSGOUT-NMEA_ID_GBS_USB", "MSGOUT-NMEA_ID_GGA_I2C",
   "MSGOUT-NMEA_ID_GGA_SPI", "MSGOUT-NMEA_ID_GGA_UART1", "MSGOUT-NMEA_ID_GGA_UART2", "MSGOUT-NMEA_ID_GGA_USB",
   "MSGOUT-NMEA_ID_GLL_I2C", "MSGOUT-NMEA_ID_GLL_SPI", "MSGOUT-NMEA_ID_GLL_UART1", "MSGOUT-NMEA_ID_GLL_UART2",
   "MSGOUT-NMEA_ID_GLL_USB", "MSGOUT-NMEA_ID_GNS_I2C", "MSGOUT-NMEA_ID_GNS_SPI", "MSGOUT-NMEA_ID_GNS_UART1",
   "MSGOUT-NMEA_ID_GNS_UART2", "MSGOUT-NMEA_ID_GNS_USB", "MSGOUT-NMEA_ID_GRS_I2C", "MSGOUT-NMEA_ID_GRS_SPI",
   "MSGOUT-NMEA_ID_GRS_UART1", "MSGOUT-NMEA_ID_GRS_UART2", "MSGOUT-NMEA_ID_GRS_USB", "MSGOUT-NMEA_ID_GSA_I2C",
   "MSGOUT-NMEA_ID_GSA_SPI", "MSGOUT-NMEA_ID_GSA_UART1", "MSGOUT-NMEA_ID_GSA_UART2", "MSGOUT-NMEA_ID_GSA_USB",
   "MSGOUT-NMEA_ID_GST_I2C", "MSGOUT-NMEA_ID_GST_SPI", "MSGOUT-NMEA_ID_GST_UART1", "MSGOUT-NMEA_ID_GST_UART2",
   "MSGOUT-NMEA_ID_GST_USB", "MSGOUT-NMEA_ID_GSV_I2C", "MSGOUT-NMEA_ID_GSV_SPI", "MSGOUT-NMEA_ID_GSV_UART1",
   "MSGOUT-NMEA_ID_GSV_UART2", "MSGOUT-NMEA_ID_GSV_USB", "MSGOUT-NMEA_ID_RMC_I2C", "MSGOUT-NMEA_ID_RMC_SPI",
   "MSGOUT-NMEA_ID_RMC_UART1", "MSGOUT-NMEA_ID_RMC_UART2", "MSGOUT-NMEA_ID_RMC_USB", "MSGOUT-NMEA_ID_VLW_I2C",
   "MSGOUT-NMEA_ID_VLW_SPI", "MSGOUT-NMEA_ID_VLW_UART1", "MSGOUT-NMEA_ID_VLW_UART2", "MSGOUT-NMEA_ID_VLW_USB",
   "MSGOUT-NMEA_ID_VTG_I2C", "MSGOUT-NMEA_ID_VTG_SPI", "MSGOUT-NMEA_ID_VTG_UART1", "MSGOUT-NMEA_ID_VTG_UART2",
   "MSGOUT-NMEA_ID_VTG_USB", "MSGOUT-NMEA_ID_ZDA_I2C", "MSGOUT-NMEA_ID_ZDA_SPI", "MSGOUT-NMEA_ID_ZDA_UART1",
   "MSGOUT-NMEA_ID_ZDA_UART2", "MSGOUT-NMEA_ID_ZDA_USB", "MSGOUT-PUBX_ID_POLYP_I2C", "MSGOUT-PUBX_ID_POLYP_SPI",
   "MSGOUT-PUBX_ID_POLYP_UART1", "MSGOUT-PUBX_ID_POLYP_UART2", "MSGOUT-PUBX_ID_POLYP_USB", "MSGOUT-PUBX_ID_POLYS_I2C",
   "MSGOUT-PUBX_ID_POLYS_SPI", "MSGOUT-PUBX_ID_POLYS_UART1", "MSGOUT-PUBX_ID_POLYS_UART2", "MSGOUT-PUBX_ID_POLYS_USB",
   "MSGOUT-PUBX_ID_POLYT_I2C", "MSGOUT-PUBX_ID_POLYT_SPI", "MSGOUT-PUBX_ID_POLYT_UART1", "MSGOUT-PUBX_ID_POLYT_UART2",
   "MSGOUT-PUBX_ID_POLYT_USB", "MSGOUT-RTCM_3X_TYPE1005_I2C", "MSGOUT-RTCM_3X_TYPE1005_SPI", "MSGOUT-RTCM_3X_TYPE1005_UART1",
   "MSGOUT-RTCM_3X_TYPE1005_UART2", "MSGOUT-RTCM_3X_TYPE1005_USB", "MSGOUT-RTCM_3X_TYPE1074_I2C", "MSGOUT-RTCM_3X_TYPE1074_SPI",
   "MSGOUT-RTCM_3X_TYPE1074_UART1", "MSGOUT-RTCM_3X_TYPE1074_UART2", "MSGOUT-RTCM_3X_TYPE1074_USB", "MSGOUT-RTCM_3X_TYPE1077_I2C",
   "MSGOUT-RTCM_3X_TYPE1077_SPI", "MSGOUT-RTCM_3X_TYPE1077_UART1", "MSGOUT-RTCM_3X_TYPE1077_UART2", "MSGOUT-RTCM_3X_TYPE1077_USB",
   "MSGOUT-RTCM_3X_TYPE1087_I2C", "MSGOUT-RTCM_3X_TYPE1084_SPI", "MSGOUT-RTCM_3X_TYPE1084_UART1", "MSGOUT-RTCM_3X_TYPE1084_UART2",
   "MSGOUT-RTCM_3X_TYPE1084_USB", "MSGOUT-RTCM_3X_TYPE1087_SPI", "MSGOUT-RTCM_3X_TYPE1087_UART1", "MSGOUT-RTCM_3X_TYPE1087_UART2",
   "MSGOUT-RTCM_3X_TYPE1087_USB", "MSGOUT-RTCM_3X_TYPE1094_I2C", "MSGOUT-RTCM_3X_TYPE1094_SPI", "MSGOUT-RTCM_3X_TYPE1094_UART1",
   "MSGOUT-RTCM_3X_TYPE1094_UART2", "MSGOUT-RTCM_3X_TYPE1094_USB", "MSGOUT-RTCM_3X_TYPE1097_I2C", "MSGOUT-RTCM_3X_TYPE1097_SPI",
   "MSGOUT-RTCM_3X_TYPE1097_UART1", "MSGOUT-RTCM_3X_TYPE1097_UART2", "MSGOUT-RTCM_3X_TYPE1097_USB", "MSGOUT-RTCM_3X_TYPE1124_I2C",
   "MSGOUT-RTCM_3X_TYPE1124_SPI", "MSGOUT-RTCM_3X_TYPE1124_UART1", "MSGOUT-RTCM_3X_TYPE1124_UART2", "MSGOUT-RTCM_3X_TYPE1124_USB",
   "MSGOUT-RTCM_3X_TYPE1127_I2C", "MSGOUT-RTCM_3X_TYPE1127_SPI", "MSGOUT-RTCM_3X_TYPE1127_UART1", "MSGOUT-RTCM_3X_TYPE1127_UART2",
   "MSGOUT-RTCM_3X_TYPE1127_USB", "MSGOUT-RTCM_3X_TYPE1230_I2C", "MSGOUT-RTCM_3X_TYPE1230_SPI", "MSGOUT-RTCM_3X_TYPE1230_UART1",
   "MSGOUT-RTCM_3X_TYPE1230_UART2", "MSGOUT-RTCM_3X_TYPE1230_USB", "MSGOUT-RTCM_3X_TYPE4072_0_I2C", "MSGOUT-RTCM_3X_TYPE4072_0_SPI",
   "MSGOUT-RTCM_3X_TYPE4072_0_UART1", "MSGOUT-RTCM_3X_TYPE4072_0_UART2", "MSGOUT-RTCM_3X_TYPE4072_0_USB", "MSGOUT-RTCM_3X_TYPE4072_1_I2C",
   "MSGOUT-RTCM_3X_TYPE4072_1_SPI", "MSGOUT-RTCM_3X_TYPE4072_1_UART1", "MSGOUT-RTCM_3X_TYPE4072_1_UART2", "MSGOUT-RTCM_3X_TYPE4072_1_USB",
   "MSGOUT-UBX_LOG_INFO_I2C", "MSGOUT-UBX_LOG_INFO_SPI", "MSGOUT-UBX_LOG_INFO_UART1", "MSGOUT-UBX_LOG_INFO_UART2",
   "MSGOUT-UBX_LOG_INFO_USB", "MSGOUT-UBX_MON_COMMS_I2C", "MSGOUT-UBX_MON_COMMS_SPI", "MSGOUT-UBX_MON_COMMS_UART1",
   "MSGOUT-UBX_MON_COMMS_UART2", "MSGOUT-UBX_MON_COMMS_USB", "MSGOUT-UBX_MON_HW2_I2C", "MSGOUT-UBX_MON_HW2_SPI",
   "MSGOUT-UBX_MON_HW2_UART1", "MSGOUT-UBX_MON_HW2_UART2", "MSGOUT-UBX_MON_HW2_USB", "MSGOUT-UBX_MON_HW3_I2C",
   "MSGOUT-UBX_MON_HW3_SPI", "MSGOUT-UBX_MON_HW3_UART1", "MSGOUT-UBX_MON_HW3_UART2", "MSGOUT-UBX_MON_HW3_USB",
   "MSGOUT-UBX_MON_HW_I2C", "MSGOUT-UBX_MON_HW_SPI", "MSGOUT-UBX_MON_HW_UART1", "MSGOUT-UBX_MON_HW_UART2",
   "MSGOUT-UBX_MON_HW_USB", "MSGOUT-UBX_MON_IO_I2C", "MSGOUT-UBX_MON_IO_SPI", "MSGOUT-UBX_MON_IO_UART1",
   "MSGOUT-UBX_MON_IO_UART2", "MSGOUT-UBX_MON_IO_USB", "MSGOUT-UBX_MON_MSGPP_I2C", "MSGOUT-UBX_MON_MSGPP_SPI",
   "MSGOUT-UBX_MON_MSGPP_UART1", "MSGOUT-UBX_MON_MSGPP_UART2", "MSGOUT-UBX_MON_MSGPP_USB", "MSGOUT-UBX_MON_RF_I2C",
   "MSGOUT-UBX_MON_RF_SPI", "MSGOUT-UBX_MON_RF_UART1", "MSGOUT-UBX_MON_RF_UART2", "MSGOUT-UBX_MON_RF_USB",
   "MSGOUT-UBX_MON_RXBUF_I2C", "MSGOUT-UBX_MON_RXBUF_SPI", "MSGOUT-UBX_MON_RXBUF_UART1", "MSGOUT-UBX_MON_RXBUF_UART2",
   "MSGOUT-UBX_MON_RXBUF_USB", "MSGOUT-UBX_MON_RXR_I2C", "MSGOUT-UBX_MON_RXR_SPI", "MSGOUT-UBX_MON_RXR_UART1",
   "MSGOUT-UBX_MON_RXR_UART2", "MSGOUT-UBX_MON_RXR_USB", "MSGOUT-UBX_MON_TXBUF_I2C", "MSGOUT-UBX_MON_TXBUF_SPI",
   "MSGOUT-UBX_MON_TXBUF_UART1", "MSGOUT-UBX_MON_TXBUF_UART2", "MSGOUT-UBX_MON_TXBUF_USB", "MSGOUT-UBX_MON_TXBUF_I2C",
   "MSGOUT-UBX_MON_TXBUF_SPI", "MSGOUT-UBX_MON_TXBUF_UART1", "MSGOUT-UBX_MON_TXBUF_UART2", "MSGOUT-UBX_MON_TXBUF_USB",
   "MSGOUT-UBX_NAV_CLOCK_I2C", "MSGOUT-UBX_NAV_CLOCK_SPI", "MSGOUT-UBX_NAV_CLOCK_UART1", "MSGOUT-UBX_NAV_CLOCK_UART2",
   "MSGOUT-UBX_NAV_CLOCK_USB", "MSGOUT-UBX_NAV_DOP_I2C", "MSGOUT-UBX_NAV_DOP_SPI", "MSGOUT-UBX_NAV_DOP_UART1",
   "MSGOUT-UBX_NAV_DOP_UART2", "MSGOUT-UBX_NAV_DOP_USB", "MSGOUT-UBX_NAV_EOE_I2C", "MSGOUT-UBX_NAV_EOE_SPI",
   "MSGOUT-UBX_NAV_EOE_UART1", "MSGOUT-UBX_NAV_EOE_UART2", "MSGOUT-UBX_NAV_EOE_USB", "MSGOUT-UBX_NAV_GEOFENCE_I2C",
   "MSGOUT-UBX_NAV_GEOFENCE_SPI", "MSGOUT-UBX_NAV_GEOFENCE_UART1", "MSGOUT-UBX_NAV_GEOFENCE_UART2", "MSGOUT-UBX_NAV_GEOFENCE_USB",
   "MSGOUT-UBX_NAV_HPPOSECEF_I2C", "MSGOUT-UBX_NAV_HPPOSECEF_SPI", "MSGOUT-UBX_NAV_HPPOSECEF_UART1", "MSGOUT-UBX_NAV_HPPOSECEF_UART2",
   "MSGOUT-UBX_NAV_HPPOSECEF_USB", "MSGOUT-UBX_NAV_HPPOSLLH_I2C", "MSGOUT-UBX_NAV_HPPOSLLH_SPI", "MSGOUT-UBX_NAV_HPPOSLLH_UART1",
   "MSGOUT-UBX_NAV_HPPOSLLH_UART2", "MSGOUT-UBX_NAV_HPPOSLLH_USB", "MSGOUT-UBX_NAV_ODO_I2C", "MSGOUT-UBX_NAV_ODO_SPI",
   "MSGOUT-UBX_NAV_ODO_UART1", "MSGOUT-UBX_NAV_ODO_UART2", "MSGOUT-UBX_NAV_ODO_USB", "MSGOUT-UBX_NAV_ORB_I2C",
   "MSGOUT-UBX_NAV_ORB_SPI", "MSGOUT-UBX_NAV_ORB_UART1", "MSGOUT-UBX_NAV_ORB_UART2", "MSGOUT-UBX_NAV_ORB_USB",
   "MSGOUT-UBX_NAV_POSECEF_I2C", "MSGOUT-UBX_NAV_POSECEF_SPI", "MSGOUT-UBX_NAV_POSECEF_UART1", "MSGOUT-UBX_NAV_POSECEF_UART2",
   "MSGOUT-UBX_NAV_POSECEF_USB", "MSGOUT-UBX_NAV_POSLLH_I2C", "MSGOUT-UBX_NAV_POSLLH_SPI", "MSGOUT-UBX_NAV_POSLLH_UART1",
   "MSGOUT-UBX_NAV_POSLLH_UART2", "MSGOUT-UBX_NAV_POSLLH_USB", "MSGOUT-UBX_NAV_PVT_I2C", "MSGOUT-UBX_NAV_PVT_SPI",
   "MSGOUT-UBX_NAV_PVT_UART1", "MSGOUT-UBX_NAV_PVT_UART2", "MSGOUT-UBX_NAV_PVT_USB", "MSGOUT-UBX_NAV_RELPOSNED_I2C",
   "MSGOUT-UBX_NAV_RELPOSNED_SPI", "MSGOUT-UBX_NAV_RELPOSNED_UART1", "MSGOUT-UBX_NAV_RELPOSNED_UART2", "MSGOUT-UBX_NAV_RELPOSNED_USB",
   "MSGOUT-UBX_NAV_SAT_I2C", "MSGOUT-UBX_NAV_SAT_SPI", "MSGOUT-UBX_NAV_SAT_UART1", "MSGOUT-UBX_NAV_SAT_UART2",
   "MSGOUT-UBX_NAV_SAT_USB", "MSGOUT-UBX_NAV_SBAS_I2C", "MSGOUT-UBX_NAV_SBAS_SPI", "MSGOUT-UBX_NAV_SBAS_UART1",
   "MSGOUT-UBX_NAV_SBAS_UART2", "MSGOUT-UBX_NAV_SBAS_USB", "MSGOUT-UBX_NAV_SIG_I2C", "MSGOUT-UBX_NAV_SIG_SPI",
   "MSGOUT-UBX_NAV_SIG_UART1", "MSGOUT-UBX_NAV_SIG_UART2", "MSGOUT-UBX_NAV_SIG_USB", "MSGOUT-UBX_NAV_STATUS_I2C",
   "MSGOUT-UBX_NAV_STATUS_SPI", "MSGOUT-UBX_NAV_STATUS_UART1", "MSGOUT-UBX_NAV_STATUS_UART2", "MSGOUT-UBX_NAV_STATUS_USB",
   "MSGOUT-UBX_NAV_SVIN_I2C", "MSGOUT-UBX_NAV_SVIN_SPI", "MSGOUT-UBX_NAV_SVIN_UART1", "MSGOUT-UBX_NAV_SVIN_UART2",
   "MSGOUT-UBX_NAV_SVIN_USB", "MSGOUT-UBX_NAV_TIMEBDS_I2C", "MSGOUT-UBX_NAV_TIMEBDS_SPI", "MSGOUT-UBX_NAV_TIMEBDS_UART1",
   "MSGOUT-UBX_NAV_TIMEBDS_UART2", "MSGOUT-UBX_NAV_TIMEBDS_USB", "MSGOUT-UBX_NAV_TIMEGAL_I2C", "MSGOUT-UBX_NAV_TIMEGAL_SPI",
   "MSGOUT-UBX_NAV_TIMEGAL_UART1", "MSGOUT-UBX_NAV_TIMEGAL_UART2", "MSGOUT-UBX_NAV_TIMEGAL_USB", "MSGOUT-UBX_NAV_TIMEGLO_I2C",
   "MSGOUT-UBX_NAV_TIMEGLO_SPI", "MSGOUT-UBX_NAV_TIMEGLO_UART1", "MSGOUT-UBX_NAV_TIMEGLO_UART2", "MSGOUT-UBX_NAV_TIMEGLO_USB",
   "MSGOUT-UBX_NAV_TIMEGPS_I2C", "MSGOUT-UBX_NAV_TIMEGPS_SPI", "MSGOUT-UBX_NAV_TIMEGPS_UART1", "MSGOUT-UBX_NAV_TIMEGPS_UART2",
   "MSGOUT-UBX_NAV_TIMEGPS_USB", "MSGOUT-UBX_NAV_TIMELS_I2C", "MSGOUT-UBX_NAV_TIMELS_SPI", "MSGOUT-UBX_NAV_TIMELS_UART1",
   "MSGOUT-UBX_NAV_TIMELS_UART2", "MSGOUT-UBX_NAV_TIMELS_USB", "MSGOUT-UBX_NAV_TIMEUTC_I2C", "MSGOUT-UBX_NAV_TIMEUTC_SPI",
   "MSGOUT-UBX_NAV_TIMEUTC_UART1", "MSGOUT-UBX_NAV_TIMEUTC_UART2", "MSGOUT-UBX_NAV_TIMEUTC_USB", "MSGOUT-UBX_NAV_VELECEF_I2C",
   "MSGOUT-UBX_NAV_VELECEF_SPI", "MSGOUT-UBX_NAV_VELECEF_UART1", "MSGOUT-UBX_NAV_VELECEF_UART2", "MSGOUT-UBX_NAV_VELECEF_USB",
   "MSGOUT-UBX_NAV_VELNED_I2C", "MSGOUT-UBX_NAV_VELNED_SPI", "MSGOUT-UBX_NAV_VELNED_UART1", "MSGOUT-UBX_NAV_VELNED_UART2",
   "MSGOUT-UBX_NAV_VELNED_USB", "MSGOUT-UBX_RXM_MEASX_I2C", "MSGOUT-UBX_RXM_MEASX_SPI", "MSGOUT-UBX_RXM_MEASX_UART1",
   "MSGOUT-UBX_RXM_MEASX_UART2", "MSGOUT-UBX_RXM_MEASX_USB", "MSGOUT-UBX_RXM_RAWX_I2C", "MSGOUT-UBX_RXM_RAWX_SPI",
   "MSGOUT-UBX_RXM_RAWX_UART1", "MSGOUT-UBX_RXM_RAWX_UART2", "MSGOUT-UBX_RXM_RAWX_USB", "MSGOUT-UBX_RXM_RLM_I2C",
   "MSGOUT-UBX_RXM_RLM_SPI", "MSGOUT-UBX_RXM_RLM_UART1", "MSGOUT-UBX_RXM_RLM_UART2", "MSGOUT-UBX_RXM_RLM_USB",
   "MSGOUT-UBX_RXM_RTCM_I2C", "MSGOUT-UBX_RXM_RTCM_SPI", "MSGOUT-UBX_RXM_RTCM_UART1", "MSGOUT-UBX_RXM_RTCM_UART2",
   "MSGOUT-UBX_RXM_RTCM_USB", "MSGOUT-UBX_RXM_SFRBX_I2C", "MSGOUT-UBX_RXM_SFRBX_SPI", "MSGOUT-UBX_RXM_SFRBX_UART1",
   "MSGOUT-UBX_RXM_SFRBX_UART2", "MSGOUT-UBX_RXM_SFRBX_USB", "MSGOUT-UBX_TIM_SVIN_I2C", "MSGOUT-UBX_TIM_SVIN_SPI",
   "MSGOUT-UBX_TIM_SVIN_UART1", "MSGOUT-UBX_TIM_SVIN_UART2", "MSGOUT-UBX_TIM_SVIN_USB", "MSGOUT-UBX_TIM_TM2_I2C",
   "MSGOUT-UBX_TIM_TM2_SPI", "MSGOUT-UBX_TIM_TM2_UART1", "MSGOUT-UBX_TIM_TM2_UART2", "MSGOUT-UBX_TIM_TM2_USB",
   "MSGOUT-UBX_TIM_TP_I2C", "MSGOUT-UBX_TIM_TP_SPI", "MSGOUT-UBX_TIM_TP_UART1", "MSGOUT-UBX_TIM_TP_UART2",
   "MSGOUT-UBX_TIM_TP_USB", "MSGOUT-UBX_TIM_VRFY_I2C", "MSGOUT-UBX_TIM_VRFY_SPI", "MSGOUT-UBX_TIM_VRFY_UART1",
   "MSGOUT-UBX_TIM_VRFY_UART2", "MSGOUT-UBX_TIM_VRFY_USB", "NAVHPG-DGNSSMODE", "NAVSPG-FIXMODE",
   "NAVSPG-INIFIX3D", "NAVSPG-WKNROLLOVER", "NAVSPG-USE_PPP", "NAVSPG-UTCSTANDARD",
   "NAVSPG-DYNMODEL", "NAVSPG-ACKAIDING", "NAVSPG-USE_USRDAT", "NAVSPG-USRDAT_MAJA",
   "NAVSPG-USRDAT_FLAT", "NAVSPG-USRDAT_DX", "NAVSPG-USRDAT_DY", "NAVSPG-USRDAT_DZ",
   "NAVSPG-USRDAT_ROTX", "NAVSPG-USRDAT_ROTY", "NAVSPG-USRDAT_ROTZ", "NAVSPG-USRDAT_SCALE",
   "NAVSPG-INFIL_MINSVS", "NAVSPG-INFIL_MAXSVS", "NAVSPG-INFIL_MINCNO", "NAVSPG-INFIL_MINELEV",
   "NAVSPG-INFIL_NCNOTHRS", "NAVSPG-INFIL_CNOTHRS", "NAVSPG-OUTFIL_PDOP", "NAVSPG-OUTFIL_TDOP",
   "NAVSPG-OUTFIL_PACC", "NAVSPG-OUTFIL_TACC", "NAVSPG-OUTFIL_FACC", "NAVSPG-CONSTR_ALT",
   "NAVSPG-CONSTR_ALTVAR", "NAVSPG-CONSTR_DGNSSTO", "NMEA-PROTVER", "NMEA-MAXSVS",
   "NMEA-COMPAT", "NMEA-CONSIDER", "NMEA-LIMIT82", "NMEA-HIGHPREC",
   "NMEA-SVNUMBERING", "NMEA-FILT_GPS", "NMEA-FILT_SBAS", "NMEA-FILT_QZSS",
   "NMEA-FILT_GLO", "NMEA-FILT_BDS", "NMEA-OUT_INVFIX", "NMEA-OUT_MSKFIX",
   "NMEA-OUT_INVTIME", "NMEA-OUT_INVDATE", "NMEA-OUT_ONLYGPS", "NMEA-OUT_FROZENCOG",
   "NMEA-MAINTALKERID", "NMEA-GSVTALKERID", "NMEA-BDSTALKERID", "ODO-USE_ODO",
   "ODO-USE_COG", "ODO-OUTLPVEL", "ODO-OUTLPCOG", "ODO-PROFILE",
   "ODO-COGMAXSPEED", "ODO-COGMAXPOSACC", "ODO-COGLPGAIN", "ODO-VELLPGAIN",
   "RATE-MEAS", "RATE-NAV", "RATE-TIMEREF", "RINV-DUMP",
   "RINV-BINARY", "RINV-DATA_SIZE", "RINV-CHUNK0", "RINV-CHUNK1",
   "RINV-CHUNK2", "RINV-CHUNK3", "SBAS-USE_TESTMODE", "SBAS-USE_RANGING",
   "SBAS-USE_DIFFCORR", "SBAS-USE_INTEGRITY", "SBAS-PRNSCANMASK", "SIGNAL-GPS_ENA",
   "SIGNAL-GPS_L1CA_ENA", "SIGNAL-GPS_L2C_ENA", "SIGNAL-SBAS_ENA", "SIGNAL-SBAS_L1CA_ENA",
   "SIGNAL-GAL_ENA", "SIGNAL-GAL_E1_ENA", "SIGNAL-GAL_E5B_ENA", "SIGNAL-BDS_ENA",
   "SIGNAL-BDS_B1_ENA", "SIGNAL-BDS_B2_ENA", "SIGNAL-QZSS_ENA", "SIGNAL-QZSS_L1CA_ENA",
   "SIGNAL-QZSS_L1S_ENA", "SIGNAL-QZSS_L2C_ENA", "SIGNAL-GLO_ENA", "SIGNAL-GLO_L1_ENA",
   "SIGNAL-GLO_L2_ENA", "SPI-MAXFF", "SPI-CPOLARITY", "SPI-CPHASE",
   "SPI-EXTENDEDTIMEOUT", "SPI-ENABLED", "SPIINPROT-UBX", "SPIINPROT-NMEA",
   "SPIINPROT-RTCM2X", "SPIINPROT-RTCM3X", "SPIOUTPROT-UBX", "SPIOUTPROT-NMEA",
   "SPIOUTPROT-RTCM3X", "TMODE-MODE", "TMODE-POS_TYPE", "TMODE-ECEF_X",
   "TMODE-ECEF_Y", "TMODE-ECEF_Z", "TMODE-ECEF_X_HP", "TMODE-ECEF_Y_HP",
   "TMODE-ECEF_Z_HP", "TMODE-LAT", "TMODE-LON", "TMODE-HEIGHT",
   "TMODE-LAT_HP", "TMODE-LON_HP", "TMODE-HEIGHT_HP", "TMODE-FIXED_POS_ACC",
   "TMODE-SVIN_MIN_DUR", "TMODE-SVIN_ACC_LIMIT", "TP-PULSE_DEF", "TP-PULSE_LENGTH_DEF",
   "TP-ANT_CABLEDELAY", "TP-PERIOD_TP1", "TP-PERIOD_LOCK_TP1", "TP-FREQ_TP1",
   "TP-FREQ_LOCK_TP1", "TP-LEN_TP1", "TP-LEN_LOCK_TP1", "TP-DUTY_TP1",
   "TP-DUTY_LOCK_TP1", "TP-USER_DELAY_TP1", "TP-TP1_ENA", "TP-SYNC_GNSS_TP1",
   "TP-USE_LOCKED_TP1", "TP-ALIGN_TO_TOW_TP1", "TP-POL_TP1", "TP-TIMEGRID_TP1",
   "TP-PERIOD_TP2", "TP-PERIOD_LOCK_TP2", "TP-FREQ_TP2", "TP-FREQ_LOCK_TP2",
   "TP-LEN_TP2", "TP-LEN_LOCK_TP2", "TP-DUTY_TP2", "TP-DUTY_LOCK_TP2",
   "TP-USER_DELAY_TP2", "TP-TP2_ENA", "TP-SYNC_GNSS_TP2", "TP-USE_LOCKED_TP2",
   "TP-ALIGN_TO_TOW_TP2", "TP-POL_TP2", "TP-TIMEGRID_TP2", "UART1-BAUDRATE",
   "UART1-STOPBITS", "UART1-DATABITS", "UART1-PARITY", "UART1-ENABLED",
   "UART1INPROT-UBX", "UART1INPROT-NMEA", "UART1INPROT-RTCM2X", "UART1INPROT-RTCM3X",
   "UART1OUTPROT-UBX", "UART1OUTPROT-NMEA", "UART1OUTPROT-RTCM3X", "UART2-BAUDRATE",
   "UART2-STOPBITS", "UART2-DATABITS", "UART2-PARITY", "UART2-ENABLED",
   "UART2-REMAP", "UART2INPROT-UBX", "UART2INPROT-NMEA", "UART2INPROT-RTCM2X",
   "UART2INPROT-RTCM3X", "UART2OUTPROT-UBX", "UART2OUTPROT-NMEA", "UART2OUTPROT-RTCM3X",
   "USB-ENABLED", "USB-SELFPOW", "USB-VENDOR_ID", "USB-PRODUCT_ID",
   "USB-POWER", "USB-VENDOR_STR0", "USB-VENDOR_STR1", "USB-VENDOR_STR2",
   "USB-VENDOR_STR3", "USB-PRODUCT_STR0", "USB-PRODUCT_STR1", "USB-PRODUCT_STR2",
   "USB-PRODUCT_STR3", "USB-SERIAL_NO_STR0", "USB-SERIAL_NO_STR1", "USB-SERIAL_NO_STR2",
   "USB-SERIAL_NO_STR3", "USBINPROT-UBX", "USBINPROT-NMEA", "USBINPROT-RTCM2X",
   "USBINPROT-RTCM3X", "USBOUTPROT-UBX", "USBOUTPROT-NMEA", "USBOUTPROT-RTCM3X"]

/-- The `vid` VALSET 32-bit UBX-key catalog of `gen_ubx` in ublox.c. -/
def vidTable : List Nat :=
  [0x20240011, 0x10240012, 0x20240013, 0x20240014, 0x10240020, 0x40240021, 0x40240022, 0x40240023,
   0x10240030, 0x40240031, 0x40240032, 0x40240033, 0x10240040, 0x40240041, 0x40240042, 0x40240043,
   0x10240050, 0x40240051, 0x40240052, 0x40240053, 0x10a3002e, 0x10a3002f, 0x10a30030, 0x10a30031,
   0x10a30032, 0x10a30033, 0x10a30034, 0x10a30035, 0x20a30036, 0x20a30037, 0x20a30038, 0x20510001,
   0x10510002, 0x10510003, 0x10710001, 0x10710002, 0x10710003, 0x10710004, 0x10720001, 0x10720002,
   0x10720004, 0x20920001, 0x20920002, 0x20920003, 0x20920004, 0x20920005, 0x20920006, 0x20920007,
   0x20920008, 0x20920009, 0x2092000a, 0x20410001, 0x20410002, 0x1041000d, 0x20410010, 0x10410013,
   0x10de0002, 0x10de0003, 0x10de0004, 0x30de0005, 0x30de0006, 0x30de0007, 0x40de0008, 0x20250038,
   0x3025003b, 0x209100a6, 0x209100aa, 0x209100a7, 0x209100a8, 0x209100a9, 0x209100dd, 0x209100e1,
   0x209100de, 0x209100df, 0x209100e0, 0x209100ba, 0x209100be, 0x209100bb, 0x209100bc, 0x209100bd,
   0x209100c9, 0x209100cd, 0x209100ca, 0x209100cb, 0x209100cc, 0x209100b5, 0x209100b9, 0x209100b6,
   0x209100b7, 0x209100b8, 0x209100ce, 0x209100d2, 0x209100cf, 0x209100d0, 0x209100d1, 0x209100bf,
   0x209100c3, 0x209100c0, 0x209100c1, 0x209100c2, 0x209100d3, 0x209100d7, 0x209100d4, 0x209100d5,
   0x209100d6, 0x209100c4, 0x209100c8, 0x209100c5, 0x209100c6, 0x209100c7, 0x209100ab, 0x209100af,
   0x209100ac, 0x209100ad, 0x209100ae, 0x209100e7, 0x209100eb, 0x209100e8, 0x209100e9, 0x209100ea,
   0x209100b0, 0x209100b4, 0x209100b1, 0x209100b2, 0x209100b3, 0x209100d8, 0x209100dc, 0x209100d9,
   0x209100da, 0x209100db, 0x209100ec, 0x209100f0, 0x209100ed, 0x209100ee, 0x209100ef, 0x209100f1,
   0x209100f5, 0x209100f2, 0x209100f3, 0x209100f4, 0x209100f6, 0x209100fa, 0x209100f7, 0x209100f8,
   0x209100f9, 0x209102bd, 0x209102c1, 0x209102be, 0x209102bf, 0x209102c0, 0x2091035e, 0x20910362,
   0x2091035f, 0x20910360, 0x20910361, 0x209102cc, 0x209102d0, 0x209102cd, 0x209102ce, 0x209102cf,
   0x209102d1, 0x20910367, 0x20910364, 0x20910365, 0x20910366, 0x209102d5, 0x209102d2, 0x209102d3,
   0x209102d4, 0x20910368, 0x2091036c, 0x20910369, 0x2091036a, 0x2091036b, 0x20910318, 0x2091031c,
   0x20910319, 0x2091031a, 0x2091031b, 0x2091036d, 0x20910371, 0x2091036e, 0x2091036f, 0x20910370,
   0x209102d6, 0x209102da, 0x209102d7, 0x209102d8, 0x209102d9, 0x20910303, 0x20910307, 0x20910304,
   0x20910305, 0x20910306, 0x209102fe, 0x20910302, 0x209102ff, 0x20910300, 0x20910301, 0x20910381,
   0x20910385, 0x20910382, 0x20910383, 0x20910384, 0x20910259, 0x2091025d, 0x2091025a, 0x2091025b,
   0x2091025c, 0x2091034f, 0x20910353, 0x20910350, 0x20910351, 0x20910352, 0x209101b9, 0x209101bd,
   0x209101ba, 0x209101bb, 0x209101bc, 0x20910354, 0x20910358, 0x20910355, 0x20910356, 0x20910357,
   0x209101b4, 0x209101b8, 0x209101b5, 0x209101b6, 0x209101b7, 0x209101a5, 0x209101a9, 0x209101a6,
   0x209101a7, 0x209101a8, 0x20910196, 0x2091019a, 0x20910197, 0x20910198, 0x20910199, 0x20910359,
   0x2091035d, 0x2091035a, 0x2091035b, 0x2091035c, 0x209101a0, 0x209101a4, 0x209101a1, 0x209101a2,
   0x209101a3, 0x20910187, 0x2091018b, 0x20910188, 0x20910189, 0x2091018a, 0x2091019b, 0x2091019f,
   0x2091019c, 0x2091019d, 0x2091019e, 0x2091019b, 0x2091019f, 0x2091019c, 0x2091019d, 0x2091019e,
   0x20910065, 0x20910069, 0x20910066, 0x20910067, 0x20910068, 0x20910038, 0x2091003c, 0x20910039,
   0x2091003a, 0x2091003b, 0x2091015f, 0x20910163, 0x20910160, 0x20910161, 0x20910162, 0x209100a1,
   0x209100a5, 0x209100a2, 0x209100a3, 0x209100a4, 0x2091002e, 0x20910032, 0x2091002f, 0x20910030,
   0x20910031, 0x20910033, 0x20910037, 0x20910034, 0x20910035, 0x20910036, 0x2091007e, 0x20910082,
   0x2091007f, 0x20910080, 0x20910081, 0x20910010, 0x20910014, 0x20910011, 0x20910012, 0x20910013,
   0x20910024, 0x20910028, 0x20910025, 0x20910026, 0x20910027, 0x20910029, 0x2091002d, 0x2091002a,
   0x2091002b, 0x2091002c, 0x20910006, 0x2091000a, 0x20910007, 0x20910008, 0x20910009, 0x2091008d,
   0x20910091, 0x2091008e, 0x2091008f, 0x20910090, 0x20910015, 0x20910019, 0x20910016, 0x20910017,
   0x20910018, 0x2091006a, 0x2091006e, 0x2091006b, 0x2091006c, 0x2091006d, 0x20910345, 0x20910349,
   0x20910346, 0x20910347, 0x20910348, 0x2091001a, 0x2091001e, 0x2091001b, 0x2091001c, 0x2091001d,
   0x20910088, 0x2091008c, 0x20910089, 0x2091008a, 0x2091008b, 0x20910051, 0x20910055, 0x20910052,
   0x20910053, 0x20910054, 0x20910056, 0x2091005a, 0x20910057, 0x20910058, 0x20910059, 0x2091004c,
   0x20910050, 0x2091004d, 0x2091004e, 0x2091004f, 0x20910047, 0x2091004b, 0x20910048, 0x20910049,
   0x2091004a, 0x20910060, 0x20910064, 0x20910061, 0x20910062, 0x20910063, 0x2091005b, 0x2091005f,
   0x2091005c, 0x2091005d, 0x2091005e, 0x2091003d, 0x20910041, 0x2091003e, 0x2091003f, 0x20910040,
   0x20910042, 0x20910046, 0x20910043, 0x20910044, 0x20910045, 0x20910204, 0x20910208, 0x20910205,
   0x20910206, 0x20910207, 0x209102a4, 0x209102a8, 0x209102a5, 0x209102a6, 0x209102a7, 0x2091025e,
   0x20910262, 0x2091025f, 0x20910260, 0x20910261, 0x20910268, 0x2091026c, 0x20910269, 0x2091026a,
   0x2091026b, 0x20910231, 0x20910235, 0x20910232, 0x20910233, 0x20910234, 0x20910097, 0x2091009b,
   0x20910098, 0x20910099, 0x2091009a, 0x20910178, 0x2091017c, 0x20910179, 0x2091017a, 0x2091017b,
   0x2091017d, 0x20910181, 0x2091017e, 0x2091017f, 0x20910180, 0x20910092, 0x20910096, 0x20910093,
   0x20910094, 0x20910095, 0x20140011, 0x20110011, 0x10110013, 0x30110017, 0x10110019, 0x2011001c,
   0x20110021, 0x10110025, 0x10110061, 0x50110062, 0x50110063, 0x40110064, 0x40110065, 0x40110066,
   0x40110067, 0x40110068, 0x40110069, 0x4011006a, 0x201100a1, 0x201100a2, 0x201100a3, 0x201100a4,
   0x201100aa, 0x201100ab, 0x301100b1, 0x301100b2, 0x301100b3, 0x301100b4, 0x301100b5, 0x401100c1,
   0x401100c2, 0x201100c4, 0x20930001, 0x20930002, 0x10930003, 0x10930004, 0x10930005, 0x10930006,
   0x20930007, 0x10930011, 0x10930012, 0x10930015, 0x10930016, 0x10930017, 0x10930021, 0x10930022,
   0x10930023, 0x10930024, 0x10930025, 0x10930026, 0x20930031, 0x20930032, 0x30930033, 0x10220001,
   0x10220002, 0x10220003, 0x10220004, 0x20220005, 0x20220021, 0x20220022, 0x20220032, 0x20220031,
   0x30210001, 0x30210002, 0x20210003, 0x10c70001, 0x10c70002, 0x20c70003, 0x50c70004, 0x50c70005,
   0x50c70006, 0x50c70007, 0x10360002, 0x10360003, 0x10360004, 0x10360005, 0x50360006, 0x1031001f,
   0x10310001, 0x10310003, 0x10310020, 0x10310005, 0x10310021, 0x10310007, 0x1031000a, 0x10310022,
   0x1031000d, 0x1031000e, 0x10310024, 0x10310012, 0x10310014, 0x10310015, 0x10310025, 0x10310018,
   0x1031001a, 0x20640001, 0x10640002, 0x10640003, 0x10640005, 0x10640006, 0x10790001, 0x10790002,
   0x10790003, 0x10790004, 0x107a0001, 0x107a0002, 0x107a0004, 0x20030001, 0x20030002, 0x40030003,
   0x40030004, 0x40030005, 0x20030006, 0x20030007, 0x20030008, 0x40030009, 0x4003000a, 0x4003000b,
   0x2003000c, 0x2003000d, 0x2003000e, 0x4003000f, 0x40030010, 0x40030011, 0x20050023, 0x20050030,
   0x30050001, 0x40050002, 0x40050003, 0x40050024, 0x40050025, 0x40050004, 0x40050005, 0x5005002a,
   0x5005002b, 0x40050006, 0x10050007, 0x10050008, 0x10050009, 0x1005000a, 0x1005000b, 0x2005000c,
   0x4005000d, 0x4005000e, 0x40050026, 0x40050027, 0x4005000f, 0x40050010, 0x5005002c, 0x5005002d,
   0x40050011, 0x10050012, 0x10050013, 0x10050014, 0x10050015, 0x10050016, 0x20050017, 0x40520001,
   0x20520002, 0x20520003, 0x20520004, 0x10520005, 0x10730001, 0x10730002, 0x10730003, 0x10730004,
   0x10740001, 0x10740002, 0x10740004, 0x40530001, 0x20530002, 0x20530003, 0x20530004, 0x10530005,
   0x10530006, 0x10750001, 0x10750002, 0x10750003, 0x10750004, 0x10760001, 0x10760002, 0x10760004,
   0x10650001, 0x10650002, 0x3065000a, 0x3065000b, 0x3065000c, 0x5065000d, 0x5065000e, 0x5065000f,
   0x50650010, 0x50650011, 0x50650012, 0x50650013, 0x50650014, 0x50650015, 0x50650016, 0x50650017,
   0x50650018, 0x10770001, 0x10770002, 0x10770003, 0x10770004, 0x10780001, 0x10780002, 0x10780004]

/-- The `vprm` VALSET value-type catalog of `gen_ubx` in ublox.c (field-type codes FU1=1 .. FS32=10). -/
def vprmTable : List Nat :=
  [1, 1, 1, 1, 1, 7, 7, 3, 1, 7, 7, 3, 1, 7, 7, 3, 1, 7, 7, 3,
   1, 1, 1, 1, 1, 1, 1, 1, 1, 1, 1, 1, 1, 1, 1, 1, 1, 1, 1, 1,
   1, 1, 1, 1, 1, 1, 1, 1, 1, 1, 1, 1, 1, 1, 1, 1, 1, 1, 1, 2,
   2, 2, 3, 1, 2, 1, 1, 1, 1, 1, 1, 1, 1, 1, 1, 1, 1, 1, 1, 1,
   1, 1, 1, 1, 1, 1, 1, 1, 1, 1, 1, 1, 1, 1, 1, 1, 1, 1, 1, 1,
   1, 1, 1, 1, 1, 1, 1, 1, 1, 1, 1, 1, 1, 1, 1, 1, 1, 1, 1, 1,
   1, 1, 1, 1, 1, 1, 1, 1, 1, 1, 1, 1, 1, 1, 1, 1, 1, 1, 1, 1,
   1, 1, 1, 1, 1, 1, 1, 1, 1, 1, 1, 1, 1, 1, 1, 1, 1, 1, 1, 1,
   1, 1, 1, 1, 1, 1, 1, 1, 1, 1, 1, 1, 1, 1, 1, 1, 1, 1, 1, 1,
   1, 1, 1, 1, 1, 1, 1, 1, 1, 1, 1, 1, 1, 1, 1, 1, 1, 1, 1, 1,
   1, 1, 1, 1, 1, 1, 1, 1, 1, 1, 1, 1, 1, 1, 1, 1, 1, 1, 1, 1,
   1, 1, 1, 1, 1, 1, 1, 1, 1, 1, 1, 1, 1, 1, 1, 1, 1, 1, 1, 1,
   1, 1, 1, 1, 1, 1, 1, 1, 1, 1, 1, 1, 1, 1, 1, 1, 1, 1, 1, 1,
   1, 1, 1, 1, 1, 1, 1, 1, 1, 1, 1, 1, 1, 1, 1, 1, 1, 1, 1, 1,
   1, 1, 1, 1, 1, 1, 1, 1, 1, 1, 1, 1, 1, 1, 1, 1, 1, 1, 1, 1,
   1, 1, 1, 1, 1, 1, 1, 1, 1, 1, 1, 1, 1, 1, 1, 1, 1, 1, 1, 1,
   1, 1, 1, 1, 1, 1, 1, 1, 1, 1, 1, 1, 1, 1, 1, 1, 1, 1, 1, 1,
   1, 1, 1, 1, 1, 1, 1, 1, 1, 1, 1, 1, 1, 1, 1, 1, 1, 1, 1, 1,
   1, 1, 1, 1, 1, 1, 1, 1, 1, 1, 1, 1, 1, 1, 1, 1, 1, 1, 1, 1,
   1, 1, 1, 1, 1, 1, 1, 1, 1, 1, 1, 1, 1, 1, 1, 1, 1, 1, 1, 1,
   1, 1, 1, 1, 1, 1, 1, 1, 1, 1, 1, 1, 1, 1, 1, 1, 1, 1, 1, 1,
   1, 1, 1, 1, 1, 1, 1, 1, 1, 1, 1, 1, 1, 1, 1, 1, 1, 2, 1, 1,
   1, 1, 1, 9, 9, 8, 8, 8, 8, 8, 8, 8, 1, 1, 1, 5, 1, 1, 2, 2,
   2, 2, 2, 7, 3, 1, 1, 1, 1, 1, 1, 1, 1, 1, 1, 1, 1, 1, 1, 1,
   1, 1, 1, 1, 1, 1, 2, 1, 1, 1, 1, 1, 1, 1, 1, 1, 2, 2, 1, 1,
   1, 1, 4, 4, 4, 4, 1, 1, 1, 1, 4, 1, 1, 1, 1, 1, 1, 1, 1, 1,
   1, 1, 1, 1, 1, 1, 1, 1, 1, 1, 1, 1, 1, 1, 1, 1, 1, 1, 1, 1,
   1, 1, 1, 7, 7, 7, 5, 5, 5, 7, 7, 7, 5, 5, 5, 3, 3, 3, 1, 1,
   6, 3, 3, 3, 3, 3, 3, 9, 9, 7, 1, 1, 1, 1, 1, 1, 3, 3, 3, 3,
   3, 3, 9, 9, 7, 1, 1, 1, 1, 1, 1, 3, 1, 1, 1, 1, 1, 1, 1, 1,
   1, 1, 1, 3, 1, 1, 1, 1, 1, 1, 1, 1, 1, 1, 1, 1, 1, 1, 2, 2,
   2, 4, 4, 4, 4, 4, 4, 4, 4, 4, 4, 4, 4, 1, 1, 1, 1, 1, 1, 1]

/-! ## `gen_ubx`: serialisation -/

/-- Value of a decimal digit run (helper for `atoiM`). -/
def digitsVal : List Char → ℤ → ℤ
  | [], acc => acc
  | c :: rest, acc =>
    if c.isDigit then digitsVal rest (10 * acc + ((c.toNat : ℤ) - 48)) else acc

/-- The C `atoi` on a `strtok` token: optional sign, then a leading
digit run (no interior whitespace can occur in a token). -/
def atoiM (s : String) : ℤ :=
  match s.toList with
  | '-' :: rest => -(digitsVal rest 0)
  | '+' :: rest => digitsVal rest 0
  | cs => digitsVal cs 0

/-- Little-endian byte serialisation of an integer value into `w`
bytes: the common semantics of `setU1/setU2/setU4/setI1/setI2/setI4`
(two's complement representation, i.e. reduction mod `2^(8w)`). -/
def bytesLE (w : ℕ) (v : ℤ) : List ℕ :=
  (List.range w).map (fun i => ((v.emod (2 ^ (8 * w))).toNat >>> (8 * i)) % 256)

/-- The `sprintf("%-32.32s", s)` serialisation of an `FS32` field:
left-justified in exactly 32 bytes, space-padded, truncated. -/
def s32Bytes (s : String) : List ℕ :=
  ((s.toList.take 32).map (fun c => c.toNat % 256)) ++
    List.replicate (32 - min 32 s.toList.length) 0x20

/-- Serialise one field of the `gen_ubx` field loop.  `ty` is the
field-type code (`FU1=1 .. FS32=10`, `0` = table exhausted, handled by
the C `default` arm as `FU1`); `arg` is `some args[j]` when `j < narg`,
else `none` (the C serialises the value 0 / the empty string).
`f4`/`f8` abstract the IEEE-754 encodings of `setR4`/`setR8` (the bytes
of `(float)atof(arg)` resp. `(double)atof(arg)`); `(float)0.0` and
`(double)0.0` encode as all-zero bytes. -/
def fieldBytes (f4 : String → List ℕ) (f8 : String → List ℕ)
    (ty : ℕ) (arg : Option String) : List ℕ :=
  if ty = 2 then bytesLE 2 (atoiM (arg.getD "0"))
  else if ty = 3 then bytesLE 4 (atoiM (arg.getD "0"))
  else if ty = 6 then bytesLE 2 (atoiM (arg.getD "0"))
  else if ty = 7 then bytesLE 4 (atoiM (arg.getD "0"))
  else if ty = 8 then (match arg with | some a => (f4 a).take 4 ++ List.replicate (4 - min 4 (f4 a).length) 0 | none => [0, 0, 0, 0])
  else if ty = 9 then (match arg with | some a => (f8 a).take 8 ++ List.replicate (8 - min 8 (f8 a).length) 0 | none => [0, 0, 0, 0, 0, 0, 0, 0])
  else if ty = 10 then s32Bytes (arg.getD "")
  else bytesLE 1 (atoiM (arg.getD "0"))

/-- The `gen_ubx` field loop `for (j=1; prm[i][j-1]||j<narg; j++)`:
emit each declared field (or a trailing 1-byte default field for extra
arguments), returning the payload bytes and the exit value of `j`.  The
fuel argument dominates the loop bound (`j` stops past
`max 32 narg ≤ 64`). -/
def emitLoop (f4 f8 : String → List ℕ) (row : List ℕ) (args : List String)
    (narg : ℕ) : ℕ → ℕ → List ℕ × ℕ
  | j, 0 => ([], j)
  | j, fuel + 1 =>
    let ty := row.getD (j - 1) 0
    if ty ≠ 0 ∨ j < narg then
      let arg := if j < narg then some (args.getD j "") else none
      let bs := fieldBytes f4 f8 ty arg
      let r := emitLoop f4 f8 row args narg (j + 1) fuel
      (bs ++ r.1, r.2)
    else ([], j)

/-- Serialise a VALSET value in its declared type (the second `switch`
of `gen_ubx`; `FU8 = 4` has no case and falls to the `default` 1-byte
arm, exactly as in the C). -/
def valsetValBytes (f4 f8 : String → List ℕ) (ty : ℕ) (arg : String) : List ℕ :=
  fieldBytes f4 f8 (if ty = 4 then 0 else ty) (some arg)

/-- Assemble the final frame of `gen_ubx`: sync bytes, `UBXCFG = 0x06`,
the message id, the back-patched payload length at offset 4, the
payload, and the `setcs` checksum; returns `(n, buffer)` with
`n = (q-buff)+2`. -/
def genFinish (msgid : ℕ) (payload : List ℕ) : ℕ × (ℕ → ℕ) :=
  let n := 8 + payload.length
  let b : ℕ → ℕ := fun idx =>
    if idx = 0 then 0xB5
    else if idx = 1 then 0x62
    else if idx = 2 then 0x06
    else if idx = 3 then msgid
    else if idx = 4 then payload.length % 256
    else if idx = 5 then (payload.length / 256) % 256
    else if idx < 6 + payload.length then payload.getD (idx - 6) 0
    else 0
  (n, setcs b n)

/-- Split a character list on spaces (helper for `tokenize`; `cur` is
the current token, accumulated in reverse). -/
def splitSpAux : List Char → List Char → List (List Char)
  | [], cur => [cur.reverse]
  | c :: rest, cur =>
    if c = ' ' then cur.reverse :: splitSpAux rest []
    else splitSpAux rest (c :: cur)

/-- The `strtok(mbuff," ")` tokenisation of `gen_ubx`: split on spaces,
drop empty tokens, keep at most 32 (`narg < 32`). -/
def tokenize (msg : String) : List String :=
  (((splitSpAux msg.data []).map (fun cs => String.mk cs)).filter (· ≠ "")).take 32

/-- The C `strncmp(s,"CFG-",4)` test: does the token begin with
`CFG-`? -/
def startsWithCFG (s : String) : Bool :=
  match s.data with
  | 'C' :: 'F' :: 'G' :: '-' :: _ => true
  | _ => false

/-- The C pointer offset `s+4`: the token with its first four
characters removed. -/
def drop4 (s : String) : String := String.mk (s.data.drop 4)

/-- `gen_ubx` of ublox.c: generate a UBX binary message from a textual
`CFG-*` command.  Returns `(0, zero buffer)` on error, else the byte
count and the frame.  `f4`/`f8` abstract the IEEE-754 float encodings
used by `setR4`/`setR8`. -/
def gen_ubx (f4 f8 : String → List ℕ) (msg : String) : ℕ × (ℕ → ℕ) :=
  let args := tokenize msg
  let narg := args.length
  if narg < 1 then (0, fun _ => 0)
  else if ¬startsWithCFG (args.getD 0 "") then (0, fun _ => 0)
  else
    match cmdNames.findIdx? (fun c => c = drop4 (args.getD 0 "")) with
    | none => (0, fun _ => 0)
    | some i =>
      let isvalset := i = 34
      if isvalset ∧ narg ≠ 7 then (0, fun _ => 0)
      else
        let narg' := if isvalset then narg - 2 else narg
        let el := emitLoop f4 f8 (prmRows.getD i []) args narg' 1 70
        if isvalset then
          let j := el.2
          let key := args.getD j ""
          if ¬startsWithCFG key then (0, fun _ => 0)
          else
            match vcmdNames.findIdx? (fun c => c = drop4 key) with
            | none => (0, fun _ => 0)
            | some k =>
              let kb := bytesLE 4 ((vidTable.getD k 0 : ℤ))
              let vb := valsetValBytes f4 f8 (vprmTable.getD k 0) (args.getD (j + 1) "")
              genFinish (idTable.getD i 0) (el.1 ++ kb ++ vb)
        else genFinish (idTable.getD i 0) el.1

/-! ## Concrete sample data (used by witnesses and counterexamples) -/

/-- A trivial instantiation of the abstract time library. -/
def sampleTL : TimeLib := ⟨fun w t => ⟨w, t⟩, fun t => (t.sec, t.time), fun t => t⟩

/-- An empty option string: no dash-options present. -/
def sampleOpt : UbxOpt := ⟨false, false, false, none, none, none, none⟩

/-- A freshly initialised receiver state (all fields zero). -/
def sampleRaw : RxState :=
  ⟨⟨0, 0⟩, [], fun _ _ => 0, fun _ _ => 0, fun _ _ => 0, fun _ _ => 0,
   fun _ => ⟨0, 0, 0, ⟨0, 0⟩, ⟨0, 0⟩⟩, fun _ => ⟨0, 0, 0, ⟨0, 0⟩⟩, 0⟩

/-- An RXM-RAWX measurement block for GPS PRN 5 with pseudorange and
phase valid and the half-cycle-subtracted bit set (`trkStat = 11`). -/
def rawxTogglePre : RawxMeas := ⟨20000000, 100, 0, 0, 5, 0, 0, 1000, 40, 0, 0, 11⟩

/-- The follow-up block for the same satellite with the
half-cycle-subtracted bit toggled off and the phase invalid
(`trkStat = 1`). -/
def rawxToggleCur : RawxMeas := ⟨20000000, 100, 0, 0, 5, 0, 0, 2000, 40, 0, 0, 1⟩

/-- A sample decoded ephemeris for satellite 61 (Galileo PRN 2). -/
def ephSample : Eph := ⟨61, 10, 0, ⟨0, 0⟩, ⟨0, 0⟩⟩

/-- A Galileo I/NAV payload whose byte-swapped image has `part1 = 0`,
`page1 = 0`, word type 6, `part2 = 1`, `page2 = 0`, and an all-zero
trailing CRC field. -/
def enavPayload : ℕ → ℕ := fun i => if i = 3 then 0x06 else if i = 19 then 0x80 else 0

/-- A receiver state whose Galileo word mask lacks only word 6
(`subfrm[.][112] = 0x3F`) and which stores `ephSample`. -/
def enavRaw : RxState :=
  { sampleRaw with subfrm := fun _ b => if b = 112 then 0x3F else 0,
                   navEph := fun _ => ephSample }

/-- A Galileo payload whose even half-page has the alert bit set. -/
def enavAlertPayload : ℕ → ℕ := fun i => if i = 3 then 0x40 else 0

/-- A Galileo payload with `part1 = 1` (even/odd violation). -/
def enavPartsPayload : ℕ → ℕ := fun i => if i = 3 then 0x80 else 0

/-- A Galileo payload with correct even/odd parts and a zero trailing
CRC field (to be mismatched against a nonzero computed CRC). -/
def enavCrcPayload : ℕ → ℕ := fun i => if i = 19 then 0x80 else 0

/-- A GLONASS string payload: string number `m = 1`, frame-id bytes
`buff[12] = 0xAA`, `buff[13] = 0xBB` after the byte-swap. -/
def gnavPayload : ℕ → ℕ :=
  fun i => if i = 3 then 8 else if i = 15 then 0xAA else if i = 14 then 0xBB else 0

/-- A receiver state whose GLONASS frame-id latch already holds
`0xAA 0xBB` and whose string buffers hold the byte 7. -/
def gnavRaw2 : RxState :=
  { sampleRaw with subfrm := fun _ b =>
      if b = 150 then 0xAA else if b = 151 then 0xBB else 7 }

/-! ## Helper lemmas -/

set_option maxRecDepth 1000000

theorem foldl_cs_congr (b b' : ℕ → ℕ) :
    ∀ (l : List ℕ) (init : ℕ × ℕ), (∀ x ∈ l, b (x + 2) = b' (x + 2)) →
      l.foldl (fun ab i => let a := (ab.1 + b (i + 2)) % 256; (a, (ab.2 + a) % 256)) init =
      l.foldl (fun ab i => let a := (ab.1 + b' (i + 2)) % 256; (a, (ab.2 + a) % 256)) init
  | [], _, _ => rfl
  | x :: rest, init, h => by
    simp only [List.foldl_cons]
    rw [h x (List.mem_cons_self x rest)]
    exact foldl_cs_congr b b' rest _ (fun y hy => h y (List.mem_cons_of_mem x hy))

theorem cssum_setcs (b : ℕ → ℕ) (len : ℕ) (hlen : 4 ≤ len) :
    cssum (setcs b len) len = cssum b len := by
  unfold cssum
  apply foldl_cs_congr
  intro x hx
  have hx' : x < len - 4 := List.mem_range.mp hx
  unfold setcs
  rw [if_neg (by omega), if_neg (by omega)]

theorem checksum_setcs (b : ℕ → ℕ) (len : ℕ) (hlen : 4 ≤ len) :
    checksum (setcs b len) len = true := by
  unfold checksum
  rw [cssum_setcs b len hlen]
  have h2 : setcs b len (len - 2) = (cssum b len).1 := by
    unfold setcs; rw [if_pos rfl]
  have h1 : setcs b len (len - 1) = (cssum b len).2 := by
    unfold setcs; rw [if_neg (by omega), if_pos rfl]
  rw [h2, h1]
  simp

theorem gen_ubx_cases (f4 f8 : String → List ℕ) (msg : String) :
    gen_ubx f4 f8 msg = (0, fun _ => 0) ∨
    ∃ mid pl, gen_ubx f4 f8 msg = genFinish mid pl := by
  simp only [gen_ubx]
  split
  · exact Or.inl rfl
  · split
    · exact Or.inl rfl
    · split
      · exact Or.inl rfl
      · split
        · exact Or.inl rfl
        · split
          · split
            · exact Or.inl rfl
            · split
              · exact Or.inl rfl
              · exact Or.inr ⟨_, _, rfl⟩
          · exact Or.inr ⟨_, _, rfl⟩

theorem genFinish_checksum (mid : ℕ) (pl : List ℕ) :
    checksum (genFinish mid pl).2 (genFinish mid pl).1 = true := by
  unfold genFinish
  exact checksum_setcs _ _ (by omega)

theorem rxmrawxStep_single (nfx : ℕ) (sigfreq : ℕ → ℕ → ℤ → ℚ) (cpv cps : ℤ)
    (time : GTime) (ver : ℕ) (m : RawxMeas)
    (lockt : ℕ → ℕ → ℚ) (halfc : ℕ → ℕ → ℕ) (lockflag : ℕ → ℕ → ℤ)
    (hsys : ubx_sys m.gnss ≠ 0)
    (hsat : satno (ubx_sys m.gnss)
      (m.svid + if ubx_sys m.gnss = SYS_QZS then 192 else 0) ≠ 0)
    (hf0 : sig_idx (ubx_sys m.gnss) (rxmrawxCode ver (ubx_sys m.gnss) m.sigid) ≠ 0)
    (hfn : sig_idx (ubx_sys m.gnss) (rxmrawxCode ver (ubx_sys m.gnss) m.sigid) ≤ nfx) :
    ((rxmrawxStep nfx sigfreq cpv cps 0 time ver m
        ⟨[], lockt, halfc, lockflag⟩).obs.map
      (fun o => (o.sat,
        o.L (sig_idx (ubx_sys m.gnss) (rxmrawxCode ver (ubx_sys m.gnss) m.sigid) - 1),
        o.P (sig_idx (ubx_sys m.gnss) (rxmrawxCode ver (ubx_sys m.gnss) m.sigid) - 1)))) =
    [(satno (ubx_sys m.gnss) (m.svid + if ubx_sys m.gnss = SYS_QZS then 192 else 0),
      rxmrawxValidL cpv m.tstat (m.cpstdB &&& 15) m.L,
      rxmrawxValidP m.tstat m.P)] := by
  have hfcond : ¬(sig_idx (ubx_sys m.gnss) (rxmrawxCode ver (ubx_sys m.gnss) m.sigid) = 0 ∨
      nfx < sig_idx (ubx_sys m.gnss) (rxmrawxCode ver (ubx_sys m.gnss) m.sigid)) := by
    push_neg
    exact ⟨hf0, hfn⟩
  simp only [rxmrawxStep]
  rw [if_neg hsys, if_neg hsat, if_neg hfcond]
  norm_num
  simp [obsSetSlot, blankObs, updF, List.set]

theorem upd2_apply {α : Type} (g : ℕ → ℕ → α) (i j : ℕ) (v : α) (a b : ℕ) :
    upd2 g i j v a b = if a = i ∧ b = j then v else g a b := rfl

theorem foldl_upd2_zero (t : ℕ) (sf : ℕ → ℕ → ℕ) (k : ℕ) (a b : ℕ) :
    ((List.range k).foldl (fun s i => upd2 s t i 0) sf) a b =
    if a = t ∧ b < k then 0 else sf a b := by
  induction k with
  | zero => simp
  | succ n ih =>
    rw [List.range_succ, List.foldl_append, List.foldl_cons, List.foldl_nil]
    rw [show upd2 ((List.range n).foldl (fun s i => upd2 s t i 0) sf) t n 0 a b =
        (if a = t ∧ b = n then 0
         else (List.range n).foldl (fun s i => upd2 s t i 0) sf a b) from rfl]
    rw [ih]
    split_ifs <;> first | rfl | omega

theorem foldl_upd2_copy (t base : ℕ) (buff : ℕ → ℕ) (sf : ℕ → ℕ → ℕ) (k : ℕ)
    (a b : ℕ) :
    ((List.range k).foldl (fun s i => upd2 s t (base + i) (buff i)) sf) a b =
    if a = t ∧ base ≤ b ∧ b < base + k then buff (b - base) else sf a b := by
  induction k with
  | zero =>
    have h : ¬(a = t ∧ base ≤ b ∧ b < base) := by omega
    simp [h]
  | succ n ih =>
    rw [List.range_succ, List.foldl_append, List.foldl_cons, List.foldl_nil]
    rw [show upd2 ((List.range n).foldl (fun s i => upd2 s t (base + i) (buff i)) sf)
        t (base + n) (buff n) a b =
        (if a = t ∧ b = base + n then buff n
         else (List.range n).foldl (fun s i => upd2 s t (base + i) (buff i)) sf a b) from rfl]
    rw [ih]
    split_ifs <;> first | rfl | omega | (congr 1; omega)

theorem gnavSaveString_changed (sat m : ℕ) (buff : ℕ → ℕ) (sf : ℕ → ℕ → ℕ)
    (hm1 : 1 ≤ m) (hm15 : m ≤ 15)
    (hch : sf (sat - 1) 150 ≠ buff 12 ∨ sf (sat - 1) 151 ≠ buff 13) :
    (∀ b, b < 40 → ¬((m - 1) * 10 ≤ b ∧ b < (m - 1) * 10 + 10) →
      gnavSaveString sat m buff sf (sat - 1) b = 0) ∧
    gnavSaveString sat m buff sf (sat - 1) 150 = buff 12 ∧
    gnavSaveString sat m buff sf (sat - 1) 151 = buff 13 ∧
    (∀ k, k < 10 → gnavSaveString sat m buff sf (sat - 1) ((m - 1) * 10 + k) = buff k) := by
  simp only [gnavSaveString]
  rw [if_pos hch]
  refine ⟨?_, ?_, ?_, ?_⟩
  · intro b hb40 hbslot
    rw [foldl_upd2_copy]
    have hc : ¬(sat - 1 = sat - 1 ∧ (m - 1) * 10 ≤ b ∧ b < (m - 1) * 10 + 10) :=
      fun hc => hbslot ⟨hc.2.1, hc.2.2⟩
    rw [if_neg hc]
    rw [upd2_apply, upd2_apply]
    rw [if_neg (by omega), if_neg (by omega), foldl_upd2_zero,
      if_pos ⟨rfl, hb40⟩]
  · rw [foldl_upd2_copy]
    rw [if_neg (by omega), upd2_apply, if_neg (by omega), upd2_apply,
      if_pos ⟨rfl, rfl⟩]
  · rw [foldl_upd2_copy]
    rw [if_neg (by omega), upd2_apply, if_pos ⟨rfl, rfl⟩]
  · intro k hk
    rw [foldl_upd2_copy]
    rw [if_pos ⟨rfl, by omega, by omega⟩]
    congr 1
    omega

theorem gnavSaveString_unchanged (sat m : ℕ) (buff : ℕ → ℕ) (sf : ℕ → ℕ → ℕ)
    (hun : sf (sat - 1) 150 = buff 12 ∧ sf (sat - 1) 151 = buff 13) :
    ∀ b, ¬((m - 1) * 10 ≤ b ∧ b < (m - 1) * 10 + 10) →
      gnavSaveString sat m buff sf (sat - 1) b = sf (sat - 1) b := by
  intro b hbslot
  simp only [gnavSaveString]
  rw [if_neg (by simp [hun.1, hun.2]), foldl_upd2_copy,
    if_neg (fun hc => hbslot ⟨hc.2.1, hc.2.2⟩)]

theorem emitLoop_valset (f4 f8 : String → List ℕ) (args : List String) :
    (emitLoop f4 f8 (prmRows.getD 34 []) args 5 1 70).2 = 5 := rfl

theorem genFinish_pos (mid : ℕ) (pl : List ℕ) : 0 < (genFinish mid pl).1 := by
  simp only [genFinish]
  omega

theorem gen_ubx_errs1 (f4 f8 : String → List ℕ) (msg : String)
    (h : ¬startsWithCFG ((tokenize msg).getD 0 "") = true) :
    (gen_ubx f4 f8 msg).1 = 0 := by
  simp only [gen_ubx]
  split
  · rfl
  · first | rfl | rw [if_pos h]

theorem gen_ubx_errs2 (f4 f8 : String → List ℕ) (msg : String)
    (h : cmdNames.findIdx? (fun c => c = drop4 ((tokenize msg).getD 0 "")) = none) :
    (gen_ubx f4 f8 msg).1 = 0 := by
  simp only [gen_ubx]
  split
  · rfl
  · split
    · rfl
    · rw [h]

theorem gen_ubx_errs3 (f4 f8 : String → List ℕ) (msg : String)
    (h : cmdNames.findIdx? (fun c => c = drop4 ((tokenize msg).getD 0 "")) = some 34)
    (h7 : (tokenize msg).length ≠ 7) :
    (gen_ubx f4 f8 msg).1 = 0 := by
  simp only [gen_ubx]
  split
  · rfl
  · split
    · rfl
    · rw [h]
      simp only []
      first
      | rw [if_pos ⟨trivial, h7⟩]
      | rw [if_pos ⟨rfl, h7⟩]

theorem gen_ubx_errs4 (f4 f8 : String → List ℕ) (msg : String)
    (h : cmdNames.findIdx? (fun c => c = drop4 ((tokenize msg).getD 0 "")) = some 34)
    (h7 : (tokenize msg).length = 7)
    (hk : ¬startsWithCFG ((tokenize msg).getD 5 "") = true ∨
      vcmdNames.findIdx? (fun c => c = drop4 ((tokenize msg).getD 5 "")) = none) :
    (gen_ubx f4 f8 msg).1 = 0 := by
  simp only [gen_ubx]
  split
  · rfl
  · split
    · rfl
    · rw [h]
      simp only []
      rw [if_neg (fun hc => hc.2 h7), h7]
      simp only [if_true, Nat.reduceSub]
      rw [emitLoop_valset]
      rcases hk with hk | hk
      · rw [if_pos hk]
      · split
        · rfl
        · rw [hk]

theorem gen_ubx_pos (f4 f8 : String → List ℕ) (msg : String) (i : ℕ)
    (hstart : startsWithCFG ((tokenize msg).getD 0 "") = true)
    (hfind : cmdNames.findIdx? (fun c => c = drop4 ((tokenize msg).getD 0 "")) = some i)
    (hvs : i = 34 → (tokenize msg).length = 7 ∧
      startsWithCFG ((tokenize msg).getD 5 "") = true ∧
      ∃ k, vcmdNames.findIdx? (fun c => c = drop4 ((tokenize msg).getD 5 "")) = some k) :
    0 < (gen_ubx f4 f8 msg).1 := by
  simp only [gen_ubx]
  split
  · next hlt =>
    exfalso
    have hnil : tokenize msg = [] := List.eq_nil_of_length_eq_zero (by omega)
    rw [hnil] at hstart
    exact absurd hstart (by decide)
  · split
    · next x hnone =>
      rw [hfind] at hnone
      exact absurd hnone (by simp)
    · next x j hj =>
      rw [hfind] at hj
      obtain rfl : i = j := Option.some.inj hj
      by_cases hi : i = 34
      · subst hi
        obtain ⟨h7, hkst, k, hvfind⟩ := hvs rfl
        rw [if_neg (fun hc => hc.2 h7), h7]
        simp only [if_true, Nat.reduceSub]
        rw [emitLoop_valset]
        rw [if_neg (fun hcc => hcc hkst), hvfind]
        exact genFinish_pos _ _
      · rw [if_neg (fun hc => hi hc.1), if_neg hi]
        exact genFinish_pos _ _

/-! ## Claim theorems -/

/-- Claim C1: for every byte fed into `input_ubx`, the framer state
invariant of §4.C is preserved; the buffer is only written below
`MAXRAWLEN` (no overrun of `frame_buf`); at `nbyte = 0` a byte is
accepted (setting `nbyte = 2`) exactly when the 2-byte sync window
equals `B5 62`; and when the header completes at `nbyte = 6`, `len` is
decoded as `U2(buff+4) + 8` and, if it exceeds `MAXRAWLEN`, `nbyte` is
reset to 0 and status −1 is returned. -/
theorem input_ubx_framer (maxrawlen : ℕ) (dec : Framer → Int) (s : Framer) (d : ℕ)
    (hmax : 6 ≤ maxrawlen) (hinv : FramerInv maxrawlen s) :
    FramerInv maxrawlen (input_ubx maxrawlen dec s d).2 ∧
    (∀ i, (input_ubx maxrawlen dec s d).2.buff i ≠ s.buff i → i < maxrawlen) ∧
    (s.nbyte = 0 →
      ((input_ubx maxrawlen dec s d).2.nbyte = 2 ↔ s.buff 1 = 0xB5 ∧ d = 0x62)) ∧
    (s.nbyte = 5 →
      (input_ubx maxrawlen dec s d).2.len = s.buff 4 + 256 * d + 8 ∧
      (maxrawlen < s.buff 4 + 256 * d + 8 →
        (input_ubx maxrawlen dec s d).1 = -1 ∧
        (input_ubx maxrawlen dec s d).2.nbyte = 0)) := by
  by_cases h0 : s.nbyte = 0
  · simp only [input_ubx, sync_ubx, h0, reduceIte, Bool.and_eq_true, beq_iff_eq,
      Nat.one_ne_zero, if_false, if_true]
    by_cases hs : s.buff 1 = 0xB5 ∧ d = 0x62
    · obtain ⟨h1, h2⟩ := hs
      simp only [h1, h2, and_self, reduceIte]
      refine ⟨by simp [FramerInv], ?_, by simp, by intro h5; omega⟩
      intro i hi
      by_cases hi0 : i = 0
      · omega
      · by_cases hi1 : i = 1
        · omega
        · exact absurd (by simp [hi0, hi1]) hi
    · rw [if_neg hs]
      refine ⟨by simp [FramerInv], ?_, ?_, by intro h5; omega⟩
      · intro i hi
        by_cases hi0 : i = 0
        · omega
        · by_cases hi1 : i = 1
          · omega
          · exact absurd (by simp [hi0, hi1]) hi
      · intro _
        simp only [reduceIte]
        exact ⟨fun h => absurd h (by norm_num), fun h => absurd h hs⟩
  · rcases hinv with h | h | h
    · exact absurd h h0
    · by_cases h5 : s.nbyte = 5
      · refine ⟨?_, ?_, fun hh => absurd hh h0, fun _ => ⟨?_, ?_⟩⟩
        · simp only [input_ubx, if_neg h0, h5, u2]
          norm_num
          split_ifs with hb <;> simp [FramerInv] <;> omega
        · simp only [input_ubx, if_neg h0, h5, u2]
          norm_num
          split_ifs with hb <;>
          · intro i hi
            by_cases hi5 : i = 5
            · omega
            · exact absurd (by simp [hi5]) hi
        · simp only [input_ubx, if_neg h0, h5, u2]
          norm_num
          split_ifs with hb <;> rfl
        · intro hb
          simp only [input_ubx, if_neg h0, h5, u2]
          norm_num
          rw [if_pos hb]
          exact ⟨rfl, rfl⟩
      · have hne : ¬s.nbyte + 1 = 6 := by omega
        have hlt6 : s.nbyte + 1 < 6 := by omega
        simp only [input_ubx, if_neg h0, if_neg hne]
        rw [if_neg (fun hc => hne hc.1), if_pos (Or.inl hlt6)]
        refine ⟨by simp [FramerInv]; omega, ?_, fun hh => absurd hh h0,
          fun hh => absurd hh h5⟩
        intro i hi
        by_cases hib : i = s.nbyte
        · omega
        · exact absurd (by simp [hib]) hi
    · have hne : ¬s.nbyte + 1 = 6 := by omega
      have h5 : ¬s.nbyte = 5 := by omega
      simp only [input_ubx, if_neg h0, if_neg hne]
      rw [if_neg (fun hc => hne hc.1)]
      by_cases hlt : s.nbyte + 1 < s.len
      · rw [if_pos (Or.inr hlt)]
        refine ⟨by simp [FramerInv]; omega, ?_, fun hh => absurd hh h0,
          fun hh => absurd hh h5⟩
        intro i hi
        by_cases hib : i = s.nbyte
        · omega
        · exact absurd (by simp [hib]) hi
      · rw [if_neg (by omega : ¬(s.nbyte + 1 < 6 ∨ s.nbyte + 1 < s.len))]
        refine ⟨by simp [FramerInv], ?_, fun hh => absurd hh h0,
          fun hh => absurd hh h5⟩
        intro i hi
        by_cases hib : i = s.nbyte
        · omega
        · exact absurd (by simp [hib]) hi

/-- Witness for C1: a sync byte from the idle state, and an oversize
header (`len = 8240 > 4096`) that resets the framer with status −1. -/
theorem input_ubx_framer_witness :
    FramerInv 4096 (input_ubx 4096 (fun _ => 0) ⟨0, 0, fun _ => 0⟩ 0xB5).2 ∧
    (input_ubx 4096 (fun _ => 0) ⟨5, 9000, fun _ => 40⟩ 0x20).1 = -1 ∧
    (input_ubx 4096 (fun _ => 0) ⟨5, 9000, fun _ => 40⟩ 0x20).2.nbyte = 0 := by
  have h2 := input_ubx_framer 4096 (fun _ => 0) ⟨0, 0, fun _ => 0⟩ 0xB5
    (by norm_num) (Or.inl rfl)
  have h := input_ubx_framer 4096 (fun _ => 0) ⟨5, 9000, fun _ => 40⟩ 0x20
    (by norm_num) (Or.inr (Or.inl (by norm_num)))
  exact ⟨h2.1, ((h.2.2.2 rfl).2 (by norm_num)).1, ((h.2.2.2 rfl).2 (by norm_num)).2⟩

/-- Claim C2: writing the checksum with `setcs` makes the subsequent
`checksum` verification succeed for every buffer of length at least 4;
in particular every frame produced by `gen_ubx` (nonzero byte count)
passes checksum verification. -/
theorem setcs_verifies :
    (∀ (b : ℕ → ℕ) (len : ℕ), 4 ≤ len → checksum (setcs b len) len = true) ∧
    (∀ (f4 f8 : String → List ℕ) (msg : String), (gen_ubx f4 f8 msg).1 ≠ 0 →
      checksum (gen_ubx f4 f8 msg).2 (gen_ubx f4 f8 msg).1 = true) := by
  refine ⟨checksum_setcs, ?_⟩
  intro f4 f8 msg h
  rcases gen_ubx_cases f4 f8 msg with hc | ⟨mid, pl, hc⟩
  · rw [hc] at h; simp at h
  · rw [hc]
    exact genFinish_checksum mid pl

/-- Witness for C2: the 8-byte zero-payload CFG frame and an actual
`gen_ubx` output. -/
theorem setcs_verifies_witness :
    checksum (setcs (fun i => [0xB5, 0x62, 0x06, 0x00, 0x00, 0x00].getD i 0) 8) 8 = true ∧
    checksum
      (gen_ubx (fun _ => [0, 0, 0, 0]) (fun _ => [0, 0, 0, 0, 0, 0, 0, 0])
        "CFG-RATE 1000 1 0").2
      (gen_ubx (fun _ => [0, 0, 0, 0]) (fun _ => [0, 0, 0, 0, 0, 0, 0, 0])
        "CFG-RATE 1000 1 0").1 = true :=
  ⟨setcs_verifies.1 _ 8 (by norm_num),
   setcs_verifies.2 _ _ "CFG-RATE 1000 1 0" (by decide)⟩

/-- Claim C3: an RXM-RAW or RXM-RAWX frame that passes the length check
but carries `week = 0` yields status 0 and leaves the receiver state
(`obs`, `lockt`, `lockflag`, `halfc`, `time`, and everything else)
unchanged. -/
theorem week_zero_drop (tl : TimeLib) (opt : UbxOpt) (nfx maxobs : ℕ)
    (sigfreq : ℕ → ℕ → ℤ → ℚ) (len lenx : ℕ) (tow towx : ℚ) (nsat nmeas ver : ℕ)
    (svs : List RawMeas) (meas : List RawxMeas) (raw : RxState)
    (hlen : 12 + 24 * nsat ≤ len) (hlenx : 24 + 32 * nmeas ≤ lenx) :
    decode_rxmraw tl opt maxobs len tow 0 nsat svs raw = (0, raw) ∧
    decode_rxmrawx tl opt nfx maxobs sigfreq lenx towx 0 nmeas ver meas raw = (0, raw) := by
  constructor
  · unfold decode_rxmraw
    rw [if_neg (by omega)]
    rfl
  · unfold decode_rxmrawx
    rw [if_neg (by omega), if_neg (by omega)]
    rfl

/-- Witness for C3: concrete week-zero frames through both decoders. -/
theorem week_zero_drop_witness :
    decode_rxmraw sampleTL sampleOpt 64 36 100000 0 1 [] sampleRaw = (0, sampleRaw) ∧
    decode_rxmrawx sampleTL sampleOpt 3 64 (fun _ _ _ => 0) 56 100 0 1 1 []
      sampleRaw = (0, sampleRaw) :=
  week_zero_drop sampleTL sampleOpt 3 64 (fun _ _ _ => 0) 36 56 100000 100 1 1 1
    [] [] sampleRaw (by norm_num) (by norm_num)

/-- Claim C4: in `decode_rxmrawx`, a measurement block's carrier phase
is invalidated (set to 0) exactly when `(trkStat & 2) = 0`, or
`L = −0.5`, or `cpStd` exceeds `cpstd_valid` (the `-MAX_STD_CP` value
when present, else 5), and the pseudorange exactly when
`(trkStat & 1) = 0`: for a 1-block frame that passes all gates, the
emitted observation carries exactly those values. -/
theorem rxmrawx_validity (tl : TimeLib) (opt : UbxOpt) (nfx maxobs : ℕ)
    (sigfreq : ℕ → ℕ → ℤ → ℚ) (len ver week : ℕ) (tow : ℚ)
    (m : RawxMeas) (raw : RxState)
    (htadj : opt.tadj = none) (hlen : 24 + 32 ≤ len) (hweek : week ≠ 0)
    (hmaxobs : 0 < maxobs)
    (hsys : ubx_sys m.gnss ≠ 0)
    (hsat : satno (ubx_sys m.gnss)
      (m.svid + if ubx_sys m.gnss = SYS_QZS then 192 else 0) ≠ 0)
    (hf0 : sig_idx (ubx_sys m.gnss) (rxmrawxCode ver (ubx_sys m.gnss) m.sigid) ≠ 0)
    (hfn : sig_idx (ubx_sys m.gnss) (rxmrawxCode ver (ubx_sys m.gnss) m.sigid) ≤ nfx) :
    ((decode_rxmrawx tl opt nfx maxobs sigfreq len tow week 1 ver [m] raw).2.obs.map
      (fun o => (o.sat,
        o.L (sig_idx (ubx_sys m.gnss) (rxmrawxCode ver (ubx_sys m.gnss) m.sigid) - 1),
        o.P (sig_idx (ubx_sys m.gnss) (rxmrawxCode ver (ubx_sys m.gnss) m.sigid) - 1)))) =
      [(satno (ubx_sys m.gnss) (m.svid + if ubx_sys m.gnss = SYS_QZS then 192 else 0),
        (if m.tstat &&& 2 = 0 ∨ m.L = -(1/2 : ℚ) ∨
            cpstdValid opt < ((m.cpstdB &&& 15 : ℕ) : ℤ) then 0 else m.L),
        (if m.tstat &&& 1 = 0 then 0 else m.P))] ∧
    (opt.maxStdCp = none → cpstdValid opt = 5) ∧
    (∀ v : ℤ, opt.maxStdCp = some v → cpstdValid opt = v) := by
  refine ⟨?_, fun h => by simp [cpstdValid, h], fun v h => by simp [cpstdValid, h]⟩
  simp only [decode_rxmrawx, htadj]
  rw [if_neg (by omega), if_neg (by omega), if_neg hweek]
  simp only [Option.getD_none, lt_self_iff_false, if_false]
  simp only [List.take, rxmrawxGo, List.length_nil]
  rw [if_neg (by omega)]
  rw [rxmrawxStep_single nfx sigfreq (cpstdValid opt) (cpstdSlip opt)
    (tl.gpst2time (week : ℤ) tow) ver m raw.lockt raw.halfc raw.lockflag
    hsys hsat hf0 hfn]
  simp [rxmrawxValidL, rxmrawxValidP]

/-- Witness for C4: a valid GPS L1 block (`trkStat = 11`) keeps its
phase and pseudorange. -/
theorem rxmrawx_validity_witness :
    ((decode_rxmrawx sampleTL sampleOpt 3 64 (fun _ _ _ => 0) 56 100 2000 1 1
        [rawxTogglePre] sampleRaw).2.obs.map
      (fun o => (o.sat,
        o.L (sig_idx (ubx_sys rawxTogglePre.gnss)
          (rxmrawxCode 1 (ubx_sys rawxTogglePre.gnss) rawxTogglePre.sigid) - 1),
        o.P (sig_idx (ubx_sys rawxTogglePre.gnss)
          (rxmrawxCode 1 (ubx_sys rawxTogglePre.gnss) rawxTogglePre.sigid) - 1)))) =
      [(5, 100, 20000000)] := by
  have h := (rxmrawx_validity sampleTL sampleOpt 3 64 (fun _ _ _ => 0) 56 1 2000 100
    rawxTogglePre sampleRaw rfl (by norm_num) (by norm_num) (by norm_num)
    (by decide) (by decide) (by decide) (by decide)).1
  rw [h]
  norm_num [rawxTogglePre, sampleOpt, cpstdValid, satno, ubx_sys, SYS_GPS, SYS_QZS]
  decide

/-- Counterexample to C5 as stated: two successive RXM-RAWX frames for
the same (satellite, slot) whose half-cycle-subtracted bit toggles
(`trkStat & 8`: 8 then 0), yet the observation emitted for the second
frame carries `LLI = 0` — bit 1 is not set, because the second frame's
phase is invalid and the `halfc`-comparison term in the LLI composition
reads the just-stored `halfc` value. -/
theorem rxmrawx_halfc_toggle_cex :
    rawxTogglePre.tstat &&& 8 = 8 ∧ rawxToggleCur.tstat &&& 8 = 0 ∧
    ((decode_rxmrawx sampleTL sampleOpt 3 64 (fun _ _ _ => 0) 56 100 2000 1 1
        [rawxToggleCur]
        (decode_rxmrawx sampleTL sampleOpt 3 64 (fun _ _ _ => 0) 56 100 2000 1 1
          [rawxTogglePre] sampleRaw).2).2.obs.map
      (fun o => (o.sat, o.LLI 0))) = [(5, 0)] := by
  decide

/-- Claim C5 (amended): in the LLI composition of `decode_rxmrawx`, the
term comparing `halfc` against the stored value reads the just-stored
value and therefore never contributes; the emitted LLI is
`LLI_HALFC` (if phase present and half-cycle invalid) OR-ed with
`LLI_SLIP` (if phase present and the latched `lockflag` is positive),
and toggling `halfc` sets LLI bit 1 on the second frame provided its
phase is valid (the toggle latches a slip, which reaches the LLI only
through the `LLI_SLIP` term). -/
theorem rxmrawx_lli_amended (cps : ℤ) (sbs : Bool) (lockt cpstd tstat : ℕ)
    (L : ℚ) (st : SlotSt) :
    (rxmrawxLLI cps sbs lockt cpstd tstat L st).1 =
      (if L ≠ 0 then
        (if (if sbs then (if 8000 < lockt then 1 else 0)
            else (if tstat &&& 4 ≠ 0 then 1 else 0)) = 0 then LLI_HALFC else 0) |||
        (if 0 < (rxmrawxLLI cps sbs lockt cpstd tstat L st).2.lockflag
         then LLI_SLIP else 0)
       else 0) ∧
    ((if tstat &&& 8 ≠ 0 then 1 else 0) ≠ st.halfc ∧ L ≠ 0 →
      (rxmrawxLLI cps sbs lockt cpstd tstat L st).1 &&& 1 = 1) := by
  have hA : (rxmrawxLLI cps sbs lockt cpstd tstat L st).1 =
      (if L ≠ 0 then
        (if (if sbs then (if 8000 < lockt then 1 else 0)
            else (if tstat &&& 4 ≠ 0 then 1 else 0)) = 0 then LLI_HALFC else 0) |||
        (if 0 < (rxmrawxLLI cps sbs lockt cpstd tstat L st).2.lockflag
         then LLI_SLIP else 0)
       else 0) := by
    by_cases hL : L = 0
    · simp [rxmrawxLLI, hL]
    · by_cases hv : (if sbs then (if 8000 < lockt then 1 else 0)
          else (if tstat &&& 4 ≠ 0 then 1 else 0)) = 0
      · simp [rxmrawxLLI, hL, hv, Nat.or_zero, Nat.zero_or]
      · simp [rxmrawxLLI, hL, hv, Nat.or_zero, Nat.zero_or]
  refine ⟨hA, ?_⟩
  intro ⟨ht, hL⟩
  have hs : 0 < (rxmrawxLLI cps sbs lockt cpstd tstat L st).2.lockflag := by
    simp only [rxmrawxLLI]
    by_cases hc : cps ≤ (cpstd : ℤ)
    · simp [hc, LLI_SLIP]
    · have ht' : ¬(if tstat &&& 8 = 0 then 0 else 1) = st.halfc := by
        by_cases h8 : tstat &&& 8 = 0 <;> simp_all
      simp [hc, ht']
  rw [hA, if_pos hL, if_pos hs]
  by_cases hv : (if sbs then (if 8000 < lockt then 1 else 0)
      else (if tstat &&& 4 ≠ 0 then 1 else 0)) = 0
  · rw [if_pos hv]; decide
  · rw [if_neg hv]; decide

/-- Witness for C5 (amended): a toggled `halfc` with valid phase sets
LLI bit 1, and the LLI of that block matches the amended composition. -/
theorem rxmrawx_lli_amended_witness :
    (rxmrawxLLI 15 false 1000 0 1 1 ⟨0, 1, 0⟩).1 &&& 1 = 1 ∧
    (rxmrawxLLI 15 false 1000 0 1 1 ⟨0, 1, 0⟩).1 =
      (if (1 : ℚ) ≠ 0 then
        (if (if false then (if 8000 < 1000 then 1 else 0)
            else (if 1 &&& 4 ≠ 0 then 1 else 0)) = 0 then LLI_HALFC else 0) |||
        (if 0 < (rxmrawxLLI 15 false 1000 0 1 1 ⟨0, 1, 0⟩).2.lockflag
         then LLI_SLIP else 0)
       else 0) := by
  have h := rxmrawx_lli_amended 15 false 1000 0 1 1 ⟨0, 1, 0⟩
  exact ⟨h.2 ⟨by decide, by norm_num⟩, h.1⟩

/-- Claim C6: `decode_ephem` returns status 0 without touching
`nav.eph` when `-EPHALL` is absent and the decoded ephemeris matches
the stored one on `iode` and `iodc`, and otherwise stores it, sets
`ephsat`, and returns 2; `decode_enav` (Galileo I/NAV, all page gates
passed) does the same with the match extended to `toe` and `toc`. -/
theorem ephem_dedup
    (opt : UbxOpt) (sat : ℕ) (eph : Eph) (raw : RxState)
    (crc24q : (ℕ → ℕ) → ℕ → ℕ) (galinav : (ℕ → ℕ) → Option Eph)
    (len off : ℕ) (p : ℕ → ℕ)
    (hlen : 44 + off ≤ len)
    (halert1 : getbitu (swap4 p) 1 1 ≠ 1)
    (halert2 : getbitu (shift16 (swap4 p)) 1 1 ≠ 1)
    (hpart1 : getbitu (swap4 p) 0 1 = 0)
    (hpart2 : getbitu (shift16 (swap4 p)) 0 1 = 1)
    (hcrc : crc24q (enavCrcBuff (swap4 p)) 25 = getbitu (shift16 (swap4 p)) 82 24)
    (hty : getbitu (swap4 p) 2 6 ≤ 6)
    (hmask : enavSaveSubfrm sat (getbitu (swap4 p) 2 6) (swap4 p) raw.subfrm
      (sat - 1) 112 = 0x7F)
    (hgalfnav : opt.galfnav = false)
    (hgal : galinav (enavSaveSubfrm sat (getbitu (swap4 p) 2 6) (swap4 p) raw.subfrm
      (sat - 1)) = some eph)
    (hsat : eph.sat = sat) :
    ((¬opt.ephall ∧ eph.iode = (raw.navEph (sat - 1)).iode ∧
        eph.iodc = (raw.navEph (sat - 1)).iodc →
      decode_ephem opt sat (some eph) raw = (0, raw)) ∧
     (opt.ephall = true ∨ eph.iode ≠ (raw.navEph (sat - 1)).iode ∨
        eph.iodc ≠ (raw.navEph (sat - 1)).iodc →
      (decode_ephem opt sat (some eph) raw).1 = 2 ∧
      (decode_ephem opt sat (some eph) raw).2.navEph (sat - 1) = { eph with sat := sat } ∧
      (decode_ephem opt sat (some eph) raw).2.ephsat = sat)) ∧
    ((¬opt.ephall ∧ eph.iode = (raw.navEph (sat - 1)).iode ∧
        timediff eph.toe (raw.navEph (sat - 1)).toe = 0 ∧
        timediff eph.toc (raw.navEph (sat - 1)).toc = 0 →
      (decode_enav crc24q galinav opt len off sat p raw).1 = 0 ∧
      (decode_enav crc24q galinav opt len off sat p raw).2.navEph (sat - 1) =
        raw.navEph (sat - 1)) ∧
     (opt.ephall = true ∨ eph.iode ≠ (raw.navEph (sat - 1)).iode ∨
        timediff eph.toe (raw.navEph (sat - 1)).toe ≠ 0 ∨
        timediff eph.toc (raw.navEph (sat - 1)).toc ≠ 0 →
      (decode_enav crc24q galinav opt len off sat p raw).1 = 2 ∧
      (decode_enav crc24q galinav opt len off sat p raw).2.navEph (sat - 1) =
        { eph with sat := sat } ∧
      (decode_enav crc24q galinav opt len off sat p raw).2.ephsat = sat)) := by
  have henav : decode_enav crc24q galinav opt len off sat p raw =
      (let raw1 := { raw with
        subfrm := enavSaveSubfrm sat (getbitu (swap4 p) 2 6) (swap4 p) raw.subfrm }
       if ¬opt.ephall ∧ eph.iode = (raw.navEph (sat - 1)).iode ∧
          timediff eph.toe (raw.navEph (sat - 1)).toe = 0 ∧
          timediff eph.toc (raw.navEph (sat - 1)).toc = 0 then (0, raw1)
       else (2, { raw1 with
          navEph := updF raw1.navEph (sat - 1) { eph with sat := sat },
          ephsat := sat })) := by
    have h1 : ¬len < 44 + off := by omega
    have h2 : ¬(getbitu (swap4 p) 1 1 = 1 ∨ getbitu (shift16 (swap4 p)) 1 1 = 1) := by
      tauto
    have h3 : ¬(getbitu (swap4 p) 0 1 ≠ 0 ∨ getbitu (shift16 (swap4 p)) 0 1 ≠ 1) := by
      simp [hpart1, hpart2]
    have h4 : ¬(crc24q (enavCrcBuff (swap4 p)) 25 ≠ getbitu (shift16 (swap4 p)) 82 24) := by
      simp [hcrc]
    have h5 : ¬(6 < getbitu (swap4 p) 2 6) := not_lt.mpr hty
    have h6 : ¬(enavSaveSubfrm sat (getbitu (swap4 p) 2 6) (swap4 p) raw.subfrm
        (sat - 1) 112 ≠ 0x7F) := by simp [hmask]
    have h7 : ¬(opt.galfnav = true) := by simp [hgalfnav]
    have h8 : ¬(eph.sat ≠ sat) := by simp [hsat]
    simp only [decode_enav]
    rw [if_neg h1, if_neg h2, if_neg h3, if_neg h4, if_neg h5, if_neg h6, if_neg h7,
      hgal]
    simp only [if_neg h8]
  refine ⟨⟨?_, ?_⟩, ?_, ?_⟩
  · intro h
    simp only [decode_ephem]
    rw [if_pos h]
  · intro h
    have hn : ¬(¬opt.ephall ∧ eph.iode = (raw.navEph (sat - 1)).iode ∧
        eph.iodc = (raw.navEph (sat - 1)).iodc) := by
      rcases h with h | h | h
      · exact fun hc => hc.1 (by simp [h])
      · exact fun hc => h hc.2.1
      · exact fun hc => h hc.2.2
    simp only [decode_ephem]
    rw [if_neg hn]
    exact ⟨rfl, by simp [updF], rfl⟩
  · intro h
    rw [henav, if_pos h]
    exact ⟨rfl, rfl⟩
  · intro h
    have hn : ¬(¬opt.ephall ∧ eph.iode = (raw.navEph (sat - 1)).iode ∧
        timediff eph.toe (raw.navEph (sat - 1)).toe = 0 ∧
        timediff eph.toc (raw.navEph (sat - 1)).toc = 0) := by
      rcases h with h | h | h | h
      · exact fun hc => hc.1 (by simp [h])
      · exact fun hc => h hc.2.1
      · exact fun hc => h hc.2.2.1
      · exact fun hc => h hc.2.2.2
    rw [henav, if_neg hn]
    exact ⟨rfl, by simp [updF], rfl⟩

/-- Witness for C6: a matching replay yields status 0 and with
`-EPHALL` status 2, both for `decode_ephem` and for a complete Galileo
I/NAV word-6 page through `decode_enav`. -/
theorem ephem_dedup_witness :
    decode_ephem sampleOpt 61 (some ephSample) enavRaw = (0, enavRaw) ∧
    (decode_ephem { sampleOpt with ephall := true } 61 (some ephSample) enavRaw).1 = 2 ∧
    (decode_enav (fun _ _ => 0) (fun _ => some ephSample) sampleOpt 52 8 61
      enavPayload enavRaw).1 = 0 ∧
    (decode_enav (fun _ _ => 0) (fun _ => some ephSample)
      { sampleOpt with ephall := true } 52 8 61 enavPayload enavRaw).1 = 2 := by
  have h1 := ephem_dedup sampleOpt 61 ephSample enavRaw (fun _ _ => 0)
    (fun _ => some ephSample) 52 8 enavPayload (by norm_num) (by decide) (by decide)
    (by decide) (by decide) (by decide) (by decide) (by decide) rfl rfl rfl
  have h2 := ephem_dedup { sampleOpt with ephall := true } 61 ephSample enavRaw
    (fun _ _ => 0) (fun _ => some ephSample) 52 8 enavPayload (by norm_num)
    (by decide) (by decide) (by decide) (by decide) (by decide) (by decide)
    (by decide) rfl rfl rfl
  exact ⟨h1.1.1 ⟨by decide, rfl, rfl⟩, (h2.1.2 (Or.inl rfl)).1,
    (h1.2.1 ⟨by decide, rfl, by norm_num [timediff, enavRaw, ephSample],
      by norm_num [timediff, enavRaw, ephSample]⟩).1, (h2.2.2 (Or.inl rfl)).1⟩

/-- Claim C7: a Galileo I/NAV page with sufficient length is silently
skipped (status 0, state unchanged) when either half-page's alert bit
is set; with no alert, wrong even/odd parts yield −1; and with correct
parts, a CRC-24Q mismatch against the trailing CRC yields −1. -/
theorem enav_page_validation (crc24q : (ℕ → ℕ) → ℕ → ℕ)
    (galinav : (ℕ → ℕ) → Option Eph) (opt : UbxOpt) (len off sat : ℕ)
    (p : ℕ → ℕ) (raw : RxState) (hlen : 44 + off ≤ len) :
    ((getbitu (swap4 p) 1 1 = 1 ∨ getbitu (shift16 (swap4 p)) 1 1 = 1 →
      decode_enav crc24q galinav opt len off sat p raw = (0, raw)) ∧
     (¬(getbitu (swap4 p) 1 1 = 1 ∨ getbitu (shift16 (swap4 p)) 1 1 = 1) →
      (getbitu (swap4 p) 0 1 ≠ 0 ∨ getbitu (shift16 (swap4 p)) 0 1 ≠ 1) →
      decode_enav crc24q galinav opt len off sat p raw = (-1, raw)) ∧
     (¬(getbitu (swap4 p) 1 1 = 1 ∨ getbitu (shift16 (swap4 p)) 1 1 = 1) →
      ¬(getbitu (swap4 p) 0 1 ≠ 0 ∨ getbitu (shift16 (swap4 p)) 0 1 ≠ 1) →
      crc24q (enavCrcBuff (swap4 p)) 25 ≠ getbitu (shift16 (swap4 p)) 82 24 →
      decode_enav crc24q galinav opt len off sat p raw = (-1, raw))) := by
  have h1 : ¬len < 44 + off := by omega
  refine ⟨?_, ?_, ?_⟩
  · intro ha
    simp only [decode_enav]
    rw [if_neg h1, if_pos ha]
  · intro ha hp
    simp only [decode_enav]
    rw [if_neg h1, if_neg ha, if_pos hp]
  · intro ha hp hc
    simp only [decode_enav]
    rw [if_neg h1, if_neg ha, if_neg hp, if_pos hc]

/-- Witness for C7: an alert page is dropped with status 0; an even/odd
violation and a CRC mismatch are rejected with −1. -/
theorem enav_page_validation_witness :
    decode_enav (fun _ _ => 0) (fun _ => none) sampleOpt 52 8 3 enavAlertPayload
      sampleRaw = (0, sampleRaw) ∧
    decode_enav (fun _ _ => 0) (fun _ => none) sampleOpt 52 8 3 enavPartsPayload
      sampleRaw = (-1, sampleRaw) ∧
    decode_enav (fun _ _ => 1) (fun _ => none) sampleOpt 52 8 3 enavCrcPayload
      sampleRaw = (-1, sampleRaw) :=
  ⟨(enav_page_validation (fun _ _ => 0) (fun _ => none) sampleOpt 52 8 3
      enavAlertPayload sampleRaw (by norm_num)).1 (Or.inl (by decide)),
   (enav_page_validation (fun _ _ => 0) (fun _ => none) sampleOpt 52 8 3
      enavPartsPayload sampleRaw (by norm_num)).2.1 (by decide) (Or.inl (by decide)),
   (enav_page_validation (fun _ _ => 1) (fun _ => none) sampleOpt 52 8 3
      enavCrcPayload sampleRaw (by norm_num)).2.2 (by decide) (by decide) (by decide)⟩

/-- Counterexample to C8 as stated: a `CFG-VALSET` command whose first
token is recognised (catalog index 34) and whose token count is exactly
7, yet `gen_ubx` returns 0, because the key token `CFG-NOPE` is not in
the VALSET key catalog. -/
theorem gen_ubx_valset_key_cex :
    startsWithCFG ((tokenize "CFG-VALSET 0 1 0 0 CFG-NOPE 1").getD 0 "") = true ∧
    cmdNames.findIdx?
      (fun c => c = drop4 ((tokenize "CFG-VALSET 0 1 0 0 CFG-NOPE 1").getD 0 "")) =
      some 34 ∧
    (tokenize "CFG-VALSET 0 1 0 0 CFG-NOPE 1").length = 7 ∧
    (gen_ubx (fun _ => [0, 0, 0, 0]) (fun _ => [0, 0, 0, 0, 0, 0, 0, 0])
      "CFG-VALSET 0 1 0 0 CFG-NOPE 1").1 = 0 := by
  refine ⟨rfl, by decide, rfl, by decide⟩

/-- Claim C8 (amended): `gen_ubx` returns 0 when the first token does
not begin with `CFG-`; when the name after `CFG-` is not in the command
catalog; for `CFG-VALSET` (catalog index 34) when the token count is
not exactly 7; and — beyond the original claim — for `CFG-VALSET` with
exactly 7 tokens whose key token (token 5) does not begin with `CFG-`
or is not in the VALSET key catalog.  For every other recognised
command, and for `CFG-VALSET` with 7 tokens and a recognised key, it
returns a positive byte count. -/
theorem gen_ubx_errors :
    (∀ f4 f8 msg, ¬startsWithCFG ((tokenize msg).getD 0 "") = true →
      (gen_ubx f4 f8 msg).1 = 0) ∧
    (∀ f4 f8 msg,
      cmdNames.findIdx? (fun c => c = drop4 ((tokenize msg).getD 0 "")) = none →
      (gen_ubx f4 f8 msg).1 = 0) ∧
    (∀ f4 f8 msg,
      cmdNames.findIdx? (fun c => c = drop4 ((tokenize msg).getD 0 "")) = some 34 →
      (tokenize msg).length ≠ 7 → (gen_ubx f4 f8 msg).1 = 0) ∧
    (∀ f4 f8 msg,
      cmdNames.findIdx? (fun c => c = drop4 ((tokenize msg).getD 0 "")) = some 34 →
      (tokenize msg).length = 7 →
      (¬startsWithCFG ((tokenize msg).getD 5 "") = true ∨
        vcmdNames.findIdx? (fun c => c = drop4 ((tokenize msg).getD 5 "")) = none) →
      (gen_ubx f4 f8 msg).1 = 0) ∧
    (∀ f4 f8 msg i, startsWithCFG ((tokenize msg).getD 0 "") = true →
      cmdNames.findIdx? (fun c => c = drop4 ((tokenize msg).getD 0 "")) = some i →
      (i = 34 → (tokenize msg).length = 7 ∧
        startsWithCFG ((tokenize msg).getD 5 "") = true ∧
        ∃ k, vcmdNames.findIdx? (fun c => c = drop4 ((tokenize msg).getD 5 "")) =
          some k) →
      0 < (gen_ubx f4 f8 msg).1) :=
  ⟨fun f4 f8 msg h => gen_ubx_errs1 f4 f8 msg h,
   fun f4 f8 msg h => gen_ubx_errs2 f4 f8 msg h,
   fun f4 f8 msg h h7 => gen_ubx_errs3 f4 f8 msg h h7,
   fun f4 f8 msg h h7 hk => gen_ubx_errs4 f4 f8 msg h h7 hk,
   fun f4 f8 msg i hs hf hvs => gen_ubx_pos f4 f8 msg i hs hf hvs⟩

/-- Witness for C8 (amended): concrete commands exercising every
branch — a non-`CFG` token, an unknown name, a short `CFG-VALSET`, a
`CFG-VALSET` with a non-`CFG` key, and two recognised commands
(`CFG-RATE` and a full `CFG-VALSET`) that produce frames. -/
theorem gen_ubx_errors_witness :
    (gen_ubx (fun _ => [0, 0, 0, 0]) (fun _ => [0, 0, 0, 0, 0, 0, 0, 0]) "FOO").1 = 0 ∧
    (gen_ubx (fun _ => [0, 0, 0, 0]) (fun _ => [0, 0, 0, 0, 0, 0, 0, 0])
      "CFG-FOO").1 = 0 ∧
    (gen_ubx (fun _ => [0, 0, 0, 0]) (fun _ => [0, 0, 0, 0, 0, 0, 0, 0])
      "CFG-VALSET 1").1 = 0 ∧
    (gen_ubx (fun _ => [0, 0, 0, 0]) (fun _ => [0, 0, 0, 0, 0, 0, 0, 0])
      "CFG-VALSET 0 1 0 0 NOPE 1").1 = 0 ∧
    0 < (gen_ubx (fun _ => [0, 0, 0, 0]) (fun _ => [0, 0, 0, 0, 0, 0, 0, 0])
      "CFG-RATE 1000 1 0").1 ∧
    0 < (gen_ubx (fun _ => [0, 0, 0, 0]) (fun _ => [0, 0, 0, 0, 0, 0, 0, 0])
      "CFG-VALSET 0 1 0 0 CFG-RATE-MEAS 1000").1 :=
  ⟨gen_ubx_errors.1 _ _ "FOO" (by decide),
   gen_ubx_errors.2.1 _ _ "CFG-FOO" (by decide),
   gen_ubx_errors.2.2.1 _ _ "CFG-VALSET 1" (by decide) (by decide),
   gen_ubx_errors.2.2.2.1 _ _ "CFG-VALSET 0 1 0 0 NOPE 1" (by decide) (by decide)
     (Or.inl (by decide)),
   gen_ubx_errors.2.2.2.2 _ _ "CFG-RATE 1000 1 0" 4 (by decide) (by decide)
     (fun h => absurd h (by decide)),
   gen_ubx_errors.2.2.2.2 _ _ "CFG-VALSET 0 1 0 0 CFG-RATE-MEAS 1000" 34 (by decide)
     (by decide) (fun _ => ⟨by decide, by decide, 496, by decide⟩)⟩

/-- Claim C9: for every GLONASS string accepted by `decode_gnav`
(Hamming test passed, string number `m` in range), the stored subframe
is `gnavSaveString`: when the frame-id bytes (`buff[12..13]`) differ
from the latch at offsets 150-151, the string-1..4 buffers (offsets
0..39 outside the incoming string's slot) are zeroed and the new frame
id is latched, and the incoming string is stored at `(m-1)*10`; when
the frame id is unchanged, all bytes outside the incoming string's
slot are left intact. -/
theorem gnav_frame_reset (teststr : (ℕ → ℕ) → Bool)
    (glostr : (ℕ → ℕ) → Option Geph) (opt : UbxOpt)
    (len off frq sat prn : ℕ) (p : ℕ → ℕ) (raw : RxState)
    (hlen : 24 + off ≤ len) (hts : teststr (swap4 p) = true)
    (hm1 : 1 ≤ getbitu (swap4 p) 1 4) (hm15 : getbitu (swap4 p) 1 4 ≤ 15) :
    (decode_gnav teststr glostr opt len off frq sat prn p raw).2.subfrm =
      gnavSaveString sat (getbitu (swap4 p) 1 4) (swap4 p) raw.subfrm ∧
    (raw.subfrm (sat - 1) 150 ≠ swap4 p 12 ∨ raw.subfrm (sat - 1) 151 ≠ swap4 p 13 →
      (∀ b, b < 40 →
        ¬((getbitu (swap4 p) 1 4 - 1) * 10 ≤ b ∧
          b < (getbitu (swap4 p) 1 4 - 1) * 10 + 10) →
        (decode_gnav teststr glostr opt len off frq sat prn p raw).2.subfrm
          (sat - 1) b = 0) ∧
      (decode_gnav teststr glostr opt len off frq sat prn p raw).2.subfrm
        (sat - 1) 150 = swap4 p 12 ∧
      (decode_gnav teststr glostr opt len off frq sat prn p raw).2.subfrm
        (sat - 1) 151 = swap4 p 13 ∧
      (∀ k, k < 10 →
        (decode_gnav teststr glostr opt len off frq sat prn p raw).2.subfrm
          (sat - 1) ((getbitu (swap4 p) 1 4 - 1) * 10 + k) = swap4 p k)) ∧
    (raw.subfrm (sat - 1) 150 = swap4 p 12 ∧ raw.subfrm (sat - 1) 151 = swap4 p 13 →
      ∀ b, ¬((getbitu (swap4 p) 1 4 - 1) * 10 ≤ b ∧
          b < (getbitu (swap4 p) 1 4 - 1) * 10 + 10) →
        (decode_gnav teststr glostr opt len off frq sat prn p raw).2.subfrm
          (sat - 1) b = raw.subfrm (sat - 1) b) := by
  have hsub : (decode_gnav teststr glostr opt len off frq sat prn p raw).2.subfrm =
      gnavSaveString sat (getbitu (swap4 p) 1 4) (swap4 p) raw.subfrm := by
    simp only [decode_gnav]
    rw [if_neg (by omega), if_neg (by simp [hts]), if_neg (by omega)]
    split
    · rfl
    · split
      · rfl
      · split
        · rfl
        · split
          · rfl
          · rfl
  refine ⟨hsub, fun hch => ?_, fun hun => ?_⟩
  · simp only [hsub]
    exact gnavSaveString_changed sat _ _ _ hm1 hm15 hch
  · simp only [hsub]
    exact gnavSaveString_unchanged sat _ _ _ hun

/-- Witness for C9: a string-1 frame against an all-zero state (frame
id changed: byte 150 latched to `0xAA`, byte 20 zeroed) and against a
state already latched to the same frame id (byte 25 keeps its old
value 7). -/
theorem gnav_frame_reset_witness :
    (decode_gnav (fun _ => true) (fun _ => none) sampleOpt 32 0 7 45 13 gnavPayload
      sampleRaw).2.subfrm 44 150 = 0xAA ∧
    (decode_gnav (fun _ => true) (fun _ => none) sampleOpt 32 0 7 45 13 gnavPayload
      sampleRaw).2.subfrm 44 20 = 0 ∧
    (decode_gnav (fun _ => true) (fun _ => none) sampleOpt 32 0 7 45 13 gnavPayload
      gnavRaw2).2.subfrm 44 25 = 7 := by
  have h1 := gnav_frame_reset (fun _ => true) (fun _ => none) sampleOpt 32 0 7 45 13
    gnavPayload sampleRaw (by norm_num) rfl (by decide) (by decide)
  have h2 := gnav_frame_reset (fun _ => true) (fun _ => none) sampleOpt 32 0 7 45 13
    gnavPayload gnavRaw2 (by norm_num) rfl (by decide) (by decide)
  have hch := h1.2.1 (Or.inl (by decide))
  refine ⟨hch.2.1.trans (by decide), hch.1 20 (by norm_num) (by decide), ?_⟩
  exact (h2.2.2 ⟨by decide, by decide⟩ 25 (by decide)).trans (by decide)

/-- Claim C10: `decode_trkmeas` and `decode_trkd5` both return status 0
with the receiver state unchanged whenever `raw.time` is unset
(`time.time = 0`): legacy tracking decoding requires a previously
established approximate receiver time. -/
theorem trk_requires_time (tl : TimeLib) (opt : UbxOpt) (len nch typ : ℕ)
    (chs : List TrkChan) (chs5 : List TrkD5Chan) (raw : RxState)
    (h : raw.time.time = 0) :
    decode_trkmeas tl opt len nch chs raw = (0, raw) ∧
    decode_trkd5 tl typ chs5 raw = (0, raw) := by
  constructor
  · simp only [decode_trkmeas]
    rw [if_pos h]
  · simp only [decode_trkd5]
    rw [if_pos h]

/-- Witness for C10: with a freshly initialised state, both tracking
decoders return `(0, raw)`. -/
theorem trk_requires_time_witness :
    decode_trkmeas sampleTL sampleOpt 200 1 [] sampleRaw = (0, sampleRaw) ∧
    decode_trkd5 sampleTL 3 [] sampleRaw = (0, sampleRaw) :=
  trk_requires_time sampleTL sampleOpt 200 1 3 [] [] sampleRaw rfl

end Ublox
